import Mathlib

/-!
Verification of the multi-agent coordination drivers of tau2-bench
(the seven `multi_agent.py` control files): message/transcript data model,
verdict parsing, the hard-verification retry loop, plan lifecycle,
routing, and cost accounting.

The driver control flow is translated from
`src/tau2/agent/{mav_hard,map_static,map_adaptive,mas_2,mas_3,paper_multi_agent}/multi_agent.py`.
The message data model (`tau2.data_model.message`) and the agent base class
are not part of the excerpted source; those pieces are modelled from the
spec (marked below).  Prompt *text* is configuration data (spec §1, out of
scope); prompt-building functions keep the control structure (which template
is chosen, what is embedded) with elided fixed prose.

LLM calls (`generate`) are modelled as oracle inputs: each driver turn
function takes the responses that `generate` would return, one per call
site; the hard-verification loop takes response streams indexed by call
number.  A raised `GenerationError` is the `Except.error` case.
-/

namespace Tau2MA

/-- Modelled from the spec: token usage mapping with `prompt_tokens` and
`completion_tokens`, both non-negative integers (spec §3); the
`tau2.data_model.message` module is not under src. -/
structure Usage where
  promptTokens : Nat
  completionTokens : Nat
deriving Repr, DecidableEq

/-- Pointwise sum of two usage mappings, as the drivers' token merging does. -/
def Usage.addU (a b : Usage) : Usage :=
  ⟨a.promptTokens + b.promptTokens, a.completionTokens + b.completionTokens⟩

/-- Values storable in a message's open metadata mapping (spec §3: string
keys, open mapping). -/
inductive MetaVal where
  | str (s : String)
  | boolv (b : Bool)
  | natv (n : Nat)
  | ratv (q : ℚ)
  | usagev (u : Usage)
deriving Repr, DecidableEq

/-- Python dict assignment `m[k] = v`: overwrite the existing entry for `k`
if present, else append a new entry. -/
def setMeta (m : List (String × MetaVal)) (k : String) (v : MetaVal) :
    List (String × MetaVal) :=
  if m.any (fun p => p.1 = k) then
    m.map (fun p => if p.1 = k then (k, v) else p)
  else
    m ++ [(k, v)]

/-- Python dict lookup `m.get(k)`: first entry with key `k`. -/
def getMeta (m : List (String × MetaVal)) (k : String) : Option MetaVal :=
  match m with
  | [] => none
  | (k', v) :: rest => if k' = k then some v else getMeta rest k

/-- Modelled from the spec: a tool call carried by an assistant message
(call id, tool name, argument mapping, requestor tag, spec §3). -/
structure ToolCall where
  id : String
  name : String
  arguments : List (String × String)
  requestor : String
deriving Repr, DecidableEq

/-- Modelled from the spec: an `AssistantMessage` with optional content,
optional tool calls, optional cost, optional usage and optional metadata
(spec §3 common fields plus the assistant-only tool-call list). -/
structure AssistantMsg where
  content : Option String
  toolCalls : Option (List ToolCall)
  cost : Option ℚ
  usage : Option Usage
  metadata : Option (List (String × MetaVal))
deriving Repr, DecidableEq

/-- Modelled from the spec: a `UserMessage` (optional textual content). -/
structure UserMsg where
  content : Option String
deriving Repr, DecidableEq

/-- Modelled from the spec: a `ToolMessage` (originating call id, stringified
result, boolean error flag, spec §3). -/
structure ToolMsg where
  callId : String
  content : Option String
  error : Bool
deriving Repr, DecidableEq

/-- Modelled from the spec: `ValidAgentInputMessage` — one incoming
conversational event: a `User` message, a single `Tool` result, or a
`MultiTool` batch of tool results (spec §6 Inbound). -/
inductive AgentInput where
  | user (m : UserMsg)
  | tool (m : ToolMsg)
  | multiTool (ms : List ToolMsg)
deriving Repr, DecidableEq

/-- Modelled from the spec: `APICompatibleMessage` — transcript entries are
assistant, user, or tool messages (never the static system preamble). -/
inductive HistMsg where
  | user (m : UserMsg)
  | assistant (m : AssistantMsg)
  | tool (m : ToolMsg)
deriving Repr, DecidableEq

/-- Shared incoming-message handling of every driver: a `MultiToolMessage`
is expanded into its constituent tool messages, any other message is
appended as itself. -/
def expandInput : AgentInput → List HistMsg
  | .user m => [.user m]
  | .tool m => [.tool m]
  | .multiTool ms => ms.map .tool

/-- Whether the incoming message is a `UserMessage`
(`isinstance(message, UserMessage)` / `message.role == "user"`). -/
def AgentInput.isUser : AgentInput → Bool
  | .user _ => true
  | _ => false

/-- Python truthiness of an optional string: `None` and `""` are falsy. -/
def truthyStr : Option String → Bool
  | none => false
  | some s => !s.isEmpty

/-- Modelled from the spec: `AssistantMessage.is_tool_call()` — the message
carries a nonempty tool-call list (the drivers' empty-message checks read
`proposed.tool_calls and len(proposed.tool_calls) > 0`). -/
def AssistantMsg.isToolCall (m : AssistantMsg) : Bool :=
  match m.toolCalls with
  | none => false
  | some l => !l.isEmpty

/-- A normalized `generate` response: content, cost and usage
(spec §6 Outbound: text-or-null, cost-or-null, usage-or-null).  Tool calls
of executor responses are carried by `AssistantMsg` instead. -/
structure GenResponse where
  content : Option String
  cost : Option ℚ
  usage : Option Usage
deriving Repr, DecidableEq

/-- Outcome of one `generate` call: a response, or a raised
`GenerationError` (spec §7). -/
abbrev GenResult := Except Unit GenResponse

/-- Accumulation guarded by Python float truthiness: the source writes
`if proposed.cost: total += proposed.cost`, skipping `None` and `0.0`. -/
def addTruthyCost (total : ℚ) (c : Option ℚ) : ℚ :=
  match c with
  | none => total
  | some x => if x = 0 then total else total + x

/-- Accumulation of an optional usage mapping: `if u: total += u[...]`
with per-key `.get(key, 0)` reads. -/
def addOptUsage (total : Usage) (u : Option Usage) : Usage :=
  match u with
  | none => total
  | some x => total.addU x

/-- Usage of an optional usage mapping, defaulting both counters to 0. -/
def usageOf (u : Option Usage) : Usage := u.getD ⟨0, 0⟩

/-- Shared cost/usage merge block at the end of a driver turn: add the
extra cost to the message's cost (creating it if absent); add the extra
usage to the message's usage, creating the mapping only when some extra
token count is positive. -/
def mergeExtras (m : AssistantMsg) (extraCost : ℚ) (extraUsage : Usage) :
    AssistantMsg :=
  let cost' : Option ℚ :=
    match m.cost with
    | some c => some (c + extraCost)
    | none => some extraCost
  let usage' : Option Usage :=
    match m.usage with
    | some u => some (u.addU extraUsage)
    | none =>
      if 0 < extraUsage.completionTokens || 0 < extraUsage.promptTokens then
        some extraUsage
      else none
  { m with cost := cost', usage := usage' }

/-- Shared empty-proposal safety net (spec §4.6): when the proposal has
neither truthy content nor a nonempty tool-call list, substitute a fixed
clarification text, preserving the cost/usage already incurred. -/
def safetyNet (fallbackContent : String) (m : AssistantMsg) : AssistantMsg :=
  if !truthyStr m.content && !m.isToolCall then
    { content := some fallbackContent
    , toolCalls := none
    , cost := m.cost
    , usage := m.usage
    , metadata := some [] }
  else m

/-- The planner drivers' cost merge, guarded by `if total_planner_cost > 0`. -/
def mergeGuarded (m : AssistantMsg) (extraCost : ℚ) (extraUsage : Usage) :
    AssistantMsg :=
  if 0 < extraCost then mergeExtras m extraCost extraUsage else m

/-! String helpers for the lenient parsers (Python `strip`, `upper`,
`lower`, `split("\n", 1)`, prefix and substring tests). -/

/-- Characters removed by Python `str.strip()` with no arguments. -/
def isPySpace (c : Char) : Bool :=
  c = ' ' || c = '\t' || c = '\n' || c = '\r' || c = '\x0b' || c = '\x0c'

/-- Python `str.strip()` on a character list. -/
def stripChars (l : List Char) : List Char :=
  ((l.dropWhile isPySpace).reverse.dropWhile isPySpace).reverse

/-- Python `str.strip()`. -/
def pyStrip (s : String) : String := ⟨stripChars s.data⟩

/-- Python `str.upper()` (the parsed labels are ASCII). -/
def pyUpper (s : String) : String := ⟨s.data.map Char.toUpper⟩

/-- Python `str.lower()` (the parsed labels are ASCII). -/
def pyLower (s : String) : String := ⟨s.data.map Char.toLower⟩

/-- Python `s.split("\n", 1)`: the text before the first newline, and the
remainder after it when a newline exists. -/
def splitFirstLine (l : List Char) : List Char × Option (List Char) :=
  match l with
  | [] => ([], none)
  | c :: rest =>
    if c = '\n' then ([], some rest)
    else
      let p := splitFirstLine rest
      (c :: p.1, p.2)

/-- Python `needle in hay` substring containment on character lists. -/
def isSubChars (needle hay : List Char) : Bool :=
  match hay with
  | [] => needle.isEmpty
  | _ :: rest => needle.isPrefixOf hay || isSubChars needle rest

/-! Verdict parsing: `VerifierVerdict` of `mav_hard/multi_agent.py`. -/

/-- The three verdict labels of the Verifier. -/
inductive VKind where
  | approve
  | reject
  | suggest
deriving Repr, DecidableEq

/-- The canonical label string of a verdict (`APPROVE` / `REJECT` /
`SUGGEST`, the class constants of `VerifierVerdict`). -/
def vkindStr : VKind → String
  | .approve => "APPROVE"
  | .reject => "REJECT"
  | .suggest => "SUGGEST"

/-- A parsed verifier response: verdict plus free-text explanation. -/
structure VerifierVerdict where
  verdict : VKind
  explanation : String
deriving Repr, DecidableEq

/-- Property `is_approved`: only the `APPROVE` verdict unblocks the action. -/
def VerifierVerdict.isApproved (v : VerifierVerdict) : Bool :=
  v.verdict = VKind.approve

/-- The first line of the stripped response, re-stripped and uppercased —
`lines[0].strip().upper()` in `VerifierVerdict.parse`. -/
def upperFirstLine (s : String) : List Char :=
  (stripChars (splitFirstLine (stripChars s.data)).1).map Char.toUpper

/-- Translation of `VerifierVerdict.parse`: empty or whitespace-only
responses default to approve; otherwise the first non-blank line is
uppercased and matched by prefix against APPROVE/REJECT/SUGGEST, then by
substring (in the source's order REJECT, SUGGEST, APPROVE), defaulting to
approve when nothing matches. -/
def parseVerdict (responseText : String) : VerifierVerdict :=
  if (stripChars responseText.data).isEmpty then
    ⟨.approve, "No feedback provided."⟩
  else
    let p := splitFirstLine (stripChars responseText.data)
    let firstLine := (stripChars p.1).map Char.toUpper
    let explanation : String :=
      match p.2 with
      | some rest => ⟨stripChars rest⟩
      | none => ""
    if "APPROVE".data.isPrefixOf firstLine then ⟨.approve, explanation⟩
    else if "REJECT".data.isPrefixOf firstLine then ⟨.reject, explanation⟩
    else if "SUGGEST".data.isPrefixOf firstLine then ⟨.suggest, explanation⟩
    else if isSubChars "REJECT".data firstLine then ⟨.reject, explanation⟩
    else if isSubChars "SUGGEST".data firstLine then ⟨.suggest, explanation⟩
    else if isSubChars "APPROVE".data firstLine then ⟨.approve, explanation⟩
    else ⟨.approve, ⟨stripChars responseText.data⟩⟩

/-- Whether the verifier response at call index `k` parses to an approval
(the loop conditions of `mav_hard` depend on the oracle only through this). -/
def verApproved (verR : Nat → GenResult) (k : Nat) : Bool :=
  (parseVerdict ((verR k).toOption.bind GenResponse.content |>.getD "")).isApproved

namespace MavHard

/-- The well-known escalation tool name (`TRANSFER_TOOL_NAME`). -/
def TRANSFER_TOOL_NAME : String := "transfer_to_human_agents"

/-- `MAX_RETRIES` of `MAVHardAgent`: 4 retries, 5 total attempts. -/
def MAX_RETRIES : Nat := 4

/-- Total attempts allowed: `MAX_RETRIES + 1`. -/
def maxAttempts : Nat := MAX_RETRIES + 1

/-- State of the MA-V-Hard system: executor system preamble plus transcript. -/
structure MAVHardState where
  executor_system_messages : List String
  messages : List HistMsg
deriving Repr, DecidableEq

/-- Result of `_call_verifier`: parsed verdict, cost, usage.  A raised
generation error is folded fail-open into an approval with zero cost. -/
structure VerRes where
  verdict : VerifierVerdict
  cost : ℚ
  usage : Option Usage
deriving Repr, DecidableEq

/-- Translation of `_call_verifier`: parse `response.content or ""`, return
`response.cost or 0.0` and the usage; on a raised error default to APPROVE
with zero cost and no usage (the explanation text embeds the exception,
elided here). -/
def callVerifier (r : GenResult) : VerRes :=
  match r with
  | .ok resp => ⟨parseVerdict (resp.content.getD ""), resp.cost.getD 0, resp.usage⟩
  | .error _ => ⟨⟨.approve, "Verifier error."⟩, 0, none⟩

/-- Translation of `_make_transfer_message`: the synthetic
`transfer_to_human_agents` tool call. -/
def makeTransferMessage : AssistantMsg :=
  { content := none
  , toolCalls := some [⟨"mav_hard_transfer_fallback", TRANSFER_TOOL_NAME,
      [("reason", "Automated verification could not approve the agent\x27s action after multiple attempts.")],
      "assistant"⟩]
  , cost := some 0
  , usage := some ⟨0, 0⟩
  , metadata := some [] }

/-- Translation of `_make_fallback_text_message`: the apologetic text used
when the transfer tool is not in the tool inventory. -/
def makeFallbackTextMessage : AssistantMsg :=
  { content := some ("I apologize for the inconvenience. I\x27m having difficulty processing " ++
      "your request correctly. Let me transfer you to a human agent who can " ++
      "assist you further.")
  , toolCalls := none
  , cost := some 0
  , usage := some ⟨0, 0⟩
  , metadata := some [] }

/-- Exit snapshot of the verification loop: the current proposal, the last
verdict, the attempt counter, and the accumulated extra cost/usage. -/
structure LoopOut where
  proposed : AssistantMsg
  verdict : VerifierVerdict
  attempt : Nat
  extraCost : ℚ
  extraUsage : Usage
deriving Repr, DecidableEq

/-- Translation of the `while attempt <= max_attempts` verification loop of
`generate_next_message`:  verify the current proposal (accumulating the
verifier's cost/usage); exit on approval; exit when the attempt budget is
spent; otherwise accumulate the rejected proposal's cost/usage and retry
the executor with the verdict feedback.  `execP k` is the proposal of the
`k`-th executor invocation, `verR k` the raw response of the `k`-th
verifier invocation.  The loop body runs at most `maxAttempts` times, so
`fuel = maxAttempts` at `attempt = 1` never reaches the fuel-0 arm. -/
def verificationLoop (execP : Nat → AssistantMsg) (verR : Nat → GenResult) :
    Nat → Nat → AssistantMsg → ℚ → Usage → LoopOut
  | 0, attempt, proposed, c, u => ⟨proposed, ⟨.approve, ""⟩, attempt, c, u⟩
  | fuel + 1, attempt, proposed, c, u =>
    let v := callVerifier (verR attempt)
    let c1 := c + v.cost
    let u1 := addOptUsage u v.usage
    if v.verdict.isApproved then ⟨proposed, v.verdict, attempt, c1, u1⟩
    else if maxAttempts ≤ attempt then ⟨proposed, v.verdict, attempt, c1, u1⟩
    else
      verificationLoop execP verR fuel (attempt + 1) (execP (attempt + 1))
        (addTruthyCost c1 proposed.cost) (addOptUsage u1 proposed.usage)

/-- Per-turn bookkeeping: number of executor and verifier invocations and
whether the synthetic escalation replaced the executor's proposal. -/
structure TurnLog where
  execCalls : Nat
  verCalls : Nat
  escalated : Bool
deriving Repr, DecidableEq

/-- Translation of `MAVHardAgent.generate_next_message`: fold the incoming
message into the transcript, run the verification loop from attempt 1, and
if the final verdict is not an approval, account the last rejected
proposal's cost and substitute the transfer tool call (or its text
fallback when `transfer_to_human_agents` is not among the tool names);
then attach metadata, merge the accumulated extra cost/usage into the
returned message, and append it to the transcript. -/
def generate_next_message (toolNames : List String)
    (execP : Nat → AssistantMsg) (verR : Nat → GenResult)
    (message : AgentInput) (st : MAVHardState) :
    AssistantMsg × MAVHardState × TurnLog :=
  let messages1 := st.messages ++ expandInput message
  let out := verificationLoop execP verR maxAttempts 1 (execP 1) 0 ⟨0, 0⟩
  let escalated := !out.verdict.isApproved
  let extraCost :=
    if escalated then addTruthyCost out.extraCost out.proposed.cost
    else out.extraCost
  let extraUsage :=
    if escalated then addOptUsage out.extraUsage out.proposed.usage
    else out.extraUsage
  let base :=
    if escalated then
      if toolNames.contains TRANSFER_TOOL_NAME then makeTransferMessage
      else makeFallbackTextMessage
    else out.proposed
  let md := setMeta (setMeta (setMeta (setMeta (setMeta (setMeta
      (base.metadata.getD [])
      "verifier_verdict" (MetaVal.str (vkindStr out.verdict.verdict)))
      "verifier_explanation" (MetaVal.str out.verdict.explanation))
      "verifier_attempts" (MetaVal.natv out.attempt))
      "verifier_cost" (MetaVal.ratv extraCost))
      "verifier_usage" (MetaVal.usagev extraUsage))
      "generated_by" (MetaVal.str "mav_hard")
  let final := mergeExtras { base with metadata := some md } extraCost extraUsage
  (final, ⟨st.executor_system_messages, messages1 ++ [HistMsg.assistant final]⟩,
    ⟨out.attempt, out.attempt, escalated⟩)

end MavHard

/-! Planner + Executor drivers.  Prompt templates: the fixed prose is
configuration data (spec §1 out of scope); the template functions keep
exactly the source's choice structure — Python truthiness `if plan:`
selects the plan-bearing template, whose output embeds the plan text. -/

/-- Result of a planner invocation as seen by the callers of
`_call_planner*`: plan text, cost, usage. -/
structure PlanRes where
  plan : String
  cost : ℚ
  usage : Option Usage
deriving Repr, DecidableEq

/-- Translation of `_call_planner` / `_call_planner_initial`: on success
return `response.content or ""`, `response.cost or 0.0` and the usage; on
a raised error proceed without a plan: `("", 0.0, None)`. -/
def callPlannerInitial (r : GenResult) : PlanRes :=
  match r with
  | .ok resp => ⟨resp.content.getD "", resp.cost.getD 0, resp.usage⟩
  | .error _ => ⟨"", 0, none⟩

/-- Translation of `_call_planner_replan`: on success return the revised
plan with its cost/usage; on a raised error keep the previous plan:
`(state.plan or "", 0.0, None)`. -/
def callPlannerReplan (statePlan : Option String) (r : GenResult) : PlanRes :=
  match r with
  | .ok resp => ⟨resp.content.getD "", resp.cost.getD 0, resp.usage⟩
  | .error _ => ⟨statePlan.getD "", 0, none⟩

/-- Role tags for the per-turn invocation order log. -/
inductive RoleCall where
  | planner
  | executor
  | verifier
  | router
deriving Repr, DecidableEq

namespace MapStatic

/-- Translation of `_build_executor_system_prompt` of `map_static`: the
plan-bearing template when `plan` is truthy, else the no-plan template
(fixed prose elided; the domain policy and plan are the embedded data). -/
def build_executor_system_prompt (domainPolicy : String) (plan : Option String) :
    String :=
  if truthyStr plan then
    "MAP_STATIC_EXECUTOR<policy>" ++ domainPolicy ++ "</policy><plan>" ++
      plan.getD "" ++ "</plan>"
  else
    "MAP_STATIC_EXECUTOR_NO_PLAN<policy>" ++ domainPolicy ++ "</policy>"

/-- State of the MA-P-Static system. -/
structure MAPStaticState where
  executor_system_messages : List String
  messages : List HistMsg
  plan : Option String
  plan_generated : Bool
deriving Repr, DecidableEq

/-- Translation of `get_init_state` (no plan yet, no-plan preamble). -/
def get_init_state (domainPolicy : String) (hist : List HistMsg) : MAPStaticState :=
  ⟨[build_executor_system_prompt domainPolicy none], hist, none, false⟩

/-- Per-turn bookkeeping for the static planner driver. -/
structure TurnLog where
  plannerCalled : Bool
  seq : List RoleCall
deriving Repr, DecidableEq

/-- Translation of `MAPStaticAgent.generate_next_message`: fold the incoming
message into the transcript; on the first `User` message (checked via
`plan_generated`) invoke the Planner once, store the plan and rebuild the
executor preamble; call the Executor; attach metadata; merge the planner
cost/usage into the returned message only when the planner cost is
positive; append the result to the transcript. -/
def generate_next_message (domainPolicy : String) (initR : GenResult)
    (execMsg : AssistantMsg) (message : AgentInput) (st : MAPStaticState) :
    AssistantMsg × MAPStaticState × TurnLog :=
  let messages1 := st.messages ++ expandInput message
  let doPlan := message.isUser && !st.plan_generated
  let pres := callPlannerInitial initR
  let totalPlannerCost : ℚ := if doPlan then pres.cost else 0
  let totalPlannerUsage : Usage :=
    if doPlan then addOptUsage ⟨0, 0⟩ pres.usage else ⟨0, 0⟩
  let plan' := if doPlan then some pres.plan else st.plan
  let planGen' := if doPlan then true else st.plan_generated
  let sys' :=
    if doPlan then [build_executor_system_prompt domainPolicy (some pres.plan)]
    else st.executor_system_messages
  let proposed := execMsg
  let md := setMeta (setMeta (proposed.metadata.getD [])
      "generated_by" (MetaVal.str "map_static"))
      "has_plan" (MetaVal.boolv planGen')
  let md :=
    if 0 < totalPlannerCost then
      setMeta (setMeta md "planner_cost" (MetaVal.ratv totalPlannerCost))
        "planner_usage" (MetaVal.usagev totalPlannerUsage)
    else md
  let proposed := { proposed with metadata := some md }
  let final := mergeGuarded proposed totalPlannerCost totalPlannerUsage
  (final,
    ⟨sys', messages1 ++ [HistMsg.assistant final], plan', planGen'⟩,
    ⟨doPlan, (if doPlan then [RoleCall.planner] else []) ++ [RoleCall.executor]⟩)

end MapStatic

namespace MapAdaptive

/-- `REPLAN_INTERVAL` of `map_adaptive`: replan every 3 executor steps. -/
def REPLAN_INTERVAL : Nat := 3

/-- Translation of `_build_executor_system_prompt` of `map_adaptive`. -/
def build_executor_system_prompt (domainPolicy : String) (plan : Option String) :
    String :=
  if truthyStr plan then
    "MAP_ADAPTIVE_EXECUTOR<policy>" ++ domainPolicy ++ "</policy><plan>" ++
      plan.getD "" ++ "</plan>"
  else
    "MAP_ADAPTIVE_EXECUTOR_NO_PLAN<policy>" ++ domainPolicy ++ "</policy>"

/-- State of the MA-P-Adaptive system (`MAPAdaptiveState`). -/
structure MAPAdaptiveState where
  executor_system_messages : List String
  messages : List HistMsg
  plan : Option String
  plan_generated : Bool
  steps_since_replan : Nat
  last_had_error : Bool
deriving Repr, DecidableEq

/-- Translation of `get_init_state`. -/
def get_init_state (domainPolicy : String) (hist : List HistMsg) :
    MAPAdaptiveState :=
  ⟨[build_executor_system_prompt domainPolicy none], hist, none, false, 0, false⟩

/-- Translation of `_check_incoming_for_errors`: any constituent tool error
of a `MultiTool` message, the error flag of a `Tool` message, otherwise
false. -/
def check_incoming_for_errors : AgentInput → Bool
  | .multiTool ms => ms.any (fun tm => tm.error)
  | .tool m => m.error
  | .user _ => false

/-- Translation of `_update_plan`: store the plan, set `plan_generated`,
reset `steps_since_replan` to 0, rebuild the executor preamble with the
plan embedded. -/
def update_plan (domainPolicy : String) (st : MAPAdaptiveState) (plan : String) :
    MAPAdaptiveState :=
  { st with
    plan := some plan
    plan_generated := true
    steps_since_replan := 0
    executor_system_messages :=
      [build_executor_system_prompt domainPolicy (some plan)] }

/-- The clarification fallback substituted for an empty executor proposal. -/
def emptyFallbackContent : String :=
  "I apologize, could you please repeat your question or provide more details so I can assist you?"

/-- Per-turn bookkeeping for the adaptive planner driver. -/
structure TurnLog where
  initialPlanned : Bool
  replanned : Bool
  seq : List RoleCall
deriving Repr, DecidableEq

/-- Translation of `MAPAdaptiveAgent.generate_next_message`: detect tool
errors before folding the incoming message into the transcript; generate
the initial plan on the first `User` message, else (once a plan exists)
replan when the incoming message carried a tool error or
`steps_since_replan >= REPLAN_INTERVAL`; call the Executor; substitute the
clarification fallback when the proposal has neither content nor tool
calls; increment `steps_since_replan`; attach metadata; merge the planner
cost/usage when positive; append the result to the transcript. -/
def generate_next_message (domainPolicy : String) (initR replanR : GenResult)
    (execMsg : AssistantMsg) (message : AgentInput) (st : MAPAdaptiveState) :
    AssistantMsg × MAPAdaptiveState × TurnLog :=
  let hasError := check_incoming_for_errors message
  let messages1 := st.messages ++ expandInput message
  let st1 : MAPAdaptiveState := { st with messages := messages1 }
  let doInitial := message.isUser && !st.plan_generated
  let needsReplan :=
    !doInitial && st.plan_generated &&
      (hasError || decide (REPLAN_INTERVAL ≤ st.steps_since_replan))
  let pres : Option PlanRes :=
    if doInitial then some (callPlannerInitial initR)
    else if needsReplan then some (callPlannerReplan st.plan replanR)
    else none
  let totalPlannerCost : ℚ := match pres with | some r => r.cost | none => 0
  let totalPlannerUsage : Usage :=
    match pres with | some r => addOptUsage ⟨0, 0⟩ r.usage | none => ⟨0, 0⟩
  let st2 :=
    match pres with
    | some r => update_plan domainPolicy st1 r.plan
    | none => st1
  let proposed := safetyNet emptyFallbackContent execMsg
  let st3 := { st2 with steps_since_replan := st2.steps_since_replan + 1 }
  let md := setMeta (setMeta (setMeta (proposed.metadata.getD [])
      "generated_by" (MetaVal.str "map_adaptive"))
      "has_plan" (MetaVal.boolv st3.plan_generated))
      "steps_since_replan" (MetaVal.natv st3.steps_since_replan)
  let md :=
    if needsReplan then
      setMeta (setMeta md "replanned" (MetaVal.boolv true))
        "replan_reason" (MetaVal.str (if hasError then "tool error" else "interval"))
    else md
  let md :=
    if 0 < totalPlannerCost then
      setMeta (setMeta md "planner_cost" (MetaVal.ratv totalPlannerCost))
        "planner_usage" (MetaVal.usagev totalPlannerUsage)
    else md
  let proposed := { proposed with metadata := some md }
  let final := mergeGuarded proposed totalPlannerCost totalPlannerUsage
  (final,
    { st3 with messages := st3.messages ++ [HistMsg.assistant final] },
    ⟨doInitial, needsReplan,
      (if doInitial || needsReplan then [RoleCall.planner] else []) ++
        [RoleCall.executor]⟩)

end MapAdaptive

/-! Router drivers: three-tier re-routing (mas_3), two-tier re-routing
(mas_2), and the first-message-only variant (paper_multi_agent). -/

/-- The three-tier issue categories (`IssueType` of mas_3 and
paper_multi_agent; the paper variant also declares an `UNKNOWN` member that
no code path produces, elided). -/
inductive IssueType3 where
  | service_issue
  | mobile_data_issue
  | mms_issue
deriving Repr, DecidableEq

/-- The `.value` string of a three-tier issue category. -/
def IssueType3.value : IssueType3 → String
  | .service_issue => "service_issue"
  | .mobile_data_issue => "mobile_data_issue"
  | .mms_issue => "mms_issue"

/-- The two-tier issue categories (`IssueType` of mas_2). -/
inductive IssueType2 where
  | infrastructure_issue
  | application_issue
deriving Repr, DecidableEq

/-- The `.value` string of a two-tier issue category. -/
def IssueType2.value : IssueType2 → String
  | .infrastructure_issue => "infrastructure_issue"
  | .application_issue => "application_issue"

namespace Mas3

/-- Classification chain of `_route_to_agent` (mas_3) over the lowered,
stripped response text: exact match against the canonical tokens, then
substring fallbacks, defaulting to `service_issue`. -/
def classify (t : String) : IssueType3 :=
  if t = "mms_issue" then .mms_issue
  else if t = "mobile_data_issue" then .mobile_data_issue
  else if t = "service_issue" then .service_issue
  else if isSubChars "mms".data t.data then .mms_issue
  else if isSubChars "mobile_data".data t.data ||
      isSubChars "data_issue".data t.data then .mobile_data_issue
  else if isSubChars "service".data t.data then .service_issue
  else .service_issue

/-- Translation of `_route_to_agent` (mas_3): on success classify
`response.content.strip().lower()` (empty when content is absent); on a
raised error default to `service_issue`. -/
def route_to_agent (r : GenResult) : IssueType3 :=
  match r with
  | .ok resp => classify (pyLower (pyStrip (resp.content.getD "")))
  | .error _ => .service_issue

/-- The pre-built specialist system prompt per category (`build_system_prompt`;
the policy prose is configuration data, elided). -/
def agentPrompt (i : IssueType3) : String :=
  "MAS3_SPECIALIST[" ++ i.value ++ "]"

/-- State of the mas_3 system (`MultiAgentState`). -/
structure MultiAgentState where
  system_messages : List String
  messages : List HistMsg
  current_agent : Option IssueType3
  is_routed : Bool
deriving Repr, DecidableEq

/-- Translation of `get_init_state`: empty system messages, restored
history, no routing yet. -/
def get_init_state (hist : List HistMsg) : MultiAgentState :=
  ⟨[], hist, none, false⟩

/-- Per-turn bookkeeping for mas_3. -/
structure TurnLog where
  routerCalls : Nat
deriving Repr, DecidableEq

/-- Translation of `PaperMultiAgent.generate_next_message` (mas_3): fold the
incoming message into the transcript; on every `User` message invoke the
Router on the full conversation and swap the specialist system prompt;
call the specialist; then write the `generated_by_agent` metadata from
`state.current_agent.value` — an attribute access that raises when
`current_agent` is still `None`, modelled as the `none` result; finally
append the message.  The log records the Router invocations. -/
def generate_next_message (routerR : GenResult) (execMsg : AssistantMsg)
    (message : AgentInput) (st : MultiAgentState) :
    Option (AssistantMsg × MultiAgentState) × TurnLog :=
  let st1 : MultiAgentState := { st with messages := st.messages ++ expandInput message }
  let isUserMsg := message.isUser
  let st2 : MultiAgentState :=
    if isUserMsg then
      let issue := route_to_agent routerR
      { st1 with
        current_agent := some issue
        is_routed := true
        system_messages := [agentPrompt issue] }
    else st1
  let log : TurnLog := ⟨if isUserMsg then 1 else 0⟩
  match st2.current_agent with
  | none => (none, log)
  | some agent =>
    let md := setMeta (execMsg.metadata.getD [])
        "generated_by_agent" (MetaVal.str agent.value)
    let m := { execMsg with metadata := some md }
    (some (m, { st2 with messages := st2.messages ++ [HistMsg.assistant m] }), log)

end Mas3

namespace Mas2

/-- Classification chain of `_route_to_agent` (mas_2): exact match against
the two canonical tokens, substring fallback, then the legacy three-category
synonyms, defaulting to `infrastructure_issue`. -/
def classify (t : String) : IssueType2 :=
  if t = "infrastructure_issue" then .infrastructure_issue
  else if t = "application_issue" then .application_issue
  else if isSubChars "infrastructure".data t.data then .infrastructure_issue
  else if isSubChars "application".data t.data then .application_issue
  else if isSubChars "service_issue".data t.data ||
      isSubChars "service".data t.data then .infrastructure_issue
  else if isSubChars "mobile_data".data t.data ||
      isSubChars "mms".data t.data ||
      isSubChars "data".data t.data then .application_issue
  else .infrastructure_issue

/-- Translation of `_route_to_agent` (mas_2): classify the lowered, stripped
response text; on a raised error default to `infrastructure_issue`. -/
def route_to_agent (r : GenResult) : IssueType2 :=
  match r with
  | .ok resp => classify (pyLower (pyStrip (resp.content.getD "")))
  | .error _ => .infrastructure_issue

/-- The pre-built specialist system prompt per category (policy prose
elided). -/
def agentPrompt (i : IssueType2) : String :=
  "MAS2_SPECIALIST[" ++ i.value ++ "]"

/-- The clarification fallback substituted for an empty response (mas_2). -/
def emptyFallbackContent : String :=
  "I apologize, could you please repeat your question or provide more details?"

/-- State of the MA-S-2 system (`MAS2State`). -/
structure MAS2State where
  system_messages : List String
  messages : List HistMsg
  current_agent : Option IssueType2
  is_routed : Bool
deriving Repr, DecidableEq

/-- Translation of `get_init_state`. -/
def get_init_state (hist : List HistMsg) : MAS2State :=
  ⟨[], hist, none, false⟩

/-- Per-turn bookkeeping for mas_2. -/
structure TurnLog where
  routerCalls : Nat
deriving Repr, DecidableEq

/-- Translation of `MAS2Agent.generate_next_message`: fold the incoming
message into the transcript; on every `User` message invoke the Router and
swap the specialist system prompt; call the specialist; substitute the
clarification fallback when the response has neither content nor tool
calls; write `generated_by_agent` (the category value, or `"unrouted"`
when no routing has happened) and `generated_by`; append the message. -/
def generate_next_message (routerR : GenResult) (execMsg : AssistantMsg)
    (message : AgentInput) (st : MAS2State) :
    AssistantMsg × MAS2State × TurnLog :=
  let st1 : MAS2State := { st with messages := st.messages ++ expandInput message }
  let isUserMsg := message.isUser
  let st2 : MAS2State :=
    if isUserMsg then
      let issue := route_to_agent routerR
      { st1 with
        current_agent := some issue
        is_routed := true
        system_messages := [agentPrompt issue] }
    else st1
  let assistantMsg := safetyNet emptyFallbackContent execMsg
  let md := setMeta (setMeta (assistantMsg.metadata.getD [])
      "generated_by_agent"
      (MetaVal.str (match st2.current_agent with
        | some a => a.value
        | none => "unrouted")))
      "generated_by" (MetaVal.str "mas_2")
  let m := { assistantMsg with metadata := some md }
  (m, { st2 with messages := st2.messages ++ [HistMsg.assistant m] },
    ⟨if isUserMsg then 1 else 0⟩)

end Mas2

namespace Paper

/-- Classification chain of `_route_to_agent` (paper_multi_agent): substring
matching only, in the order mms, mobile-data (including the bare `data`
synonym), service, defaulting to `service_issue`. -/
def classify (t : String) : IssueType3 :=
  if isSubChars "mms_issue".data t.data || isSubChars "mms".data t.data then
    .mms_issue
  else if isSubChars "mobile_data_issue".data t.data ||
      isSubChars "mobile_data".data t.data ||
      isSubChars "data".data t.data then .mobile_data_issue
  else if isSubChars "service_issue".data t.data ||
      isSubChars "service".data t.data then .service_issue
  else .service_issue

/-- Translation of `_route_to_agent` (paper_multi_agent): classify the
lowered, stripped response text; on a raised error default to
`service_issue`. -/
def route_to_agent (r : GenResult) : IssueType3 :=
  match r with
  | .ok resp => classify (pyLower (pyStrip (resp.content.getD "")))
  | .error _ => .service_issue

/-- The pre-built specialist system prompt per category (policy prose
elided). -/
def agentPrompt (i : IssueType3) : String :=
  "PAPER_SPECIALIST[" ++ i.value ++ "]"

/-- State of the paper_multi_agent system (`MultiAgentState`). -/
structure MultiAgentState where
  system_messages : List String
  messages : List HistMsg
  current_agent : Option IssueType3
  is_routed : Bool
deriving Repr, DecidableEq

/-- Translation of `get_init_state`. -/
def get_init_state (hist : List HistMsg) : MultiAgentState :=
  ⟨[], hist, none, false⟩

/-- Per-turn bookkeeping for paper_multi_agent. -/
structure TurnLog where
  routerCalls : Nat
deriving Repr, DecidableEq

/-- Translation of `PaperMultiAgent.generate_next_message`
(paper_multi_agent): fold the incoming message into the transcript; while
`is_routed` is still false — a check on the state, not on the incoming
message's role — invoke the Router, latch `is_routed`, and install the
specialist system prompt; call the specialist and append its message
unchanged (no safety net, no metadata writes). -/
def generate_next_message (routerR : GenResult) (execMsg : AssistantMsg)
    (message : AgentInput) (st : MultiAgentState) :
    AssistantMsg × MultiAgentState × TurnLog :=
  let st1 : MultiAgentState := { st with messages := st.messages ++ expandInput message }
  let doRoute := !st.is_routed
  let st2 : MultiAgentState :=
    if doRoute then
      let issue := route_to_agent routerR
      { st1 with
        current_agent := some issue
        is_routed := true
        system_messages := [agentPrompt issue] }
    else st1
  (execMsg,
    { st2 with messages := st2.messages ++ [HistMsg.assistant execMsg] },
    ⟨if doRoute then 1 else 0⟩)

end Paper

/-! Helper lemmas. -/

/-- The loop conditions of the hard-verification driver read the oracle
only through the parsed verdict's approval bit. -/
lemma verApproved_eq (verR : Nat → GenResult) (k : Nat) :
    (MavHard.callVerifier (verR k)).verdict.isApproved = verApproved verR k := by
  cases h : verR k
  · simp only [MavHard.callVerifier, verApproved, h, Except.toOption]
    rfl
  · simp only [MavHard.callVerifier, verApproved, h, Except.toOption]
    rfl

/-- Accumulating an optional cost under Python truthiness adds exactly the
cost's value (0 for `None` and for `0.0`). -/
lemma addTruthyCost_eq (t : ℚ) (c : Option ℚ) : addTruthyCost t c = t + c.getD 0 := by
  cases c with
  | none => simp [addTruthyCost]
  | some x =>
    by_cases hx : x = 0
    · simp [addTruthyCost, hx]
    · simp [addTruthyCost, hx]

/-- Accumulating an optional usage mapping adds its (defaulted) counters. -/
lemma addOptUsage_eq (t : Usage) (u : Option Usage) :
    addOptUsage t u = t.addU (usageOf u) := by
  cases u with
  | none => simp [addOptUsage, usageOf, Usage.addU]
  | some x => simp [addOptUsage, usageOf, Usage.addU]

/-- Exiting the verification loop on an approval. -/
lemma loop_exit_approved (execP : Nat → AssistantMsg) (verR : Nat → GenResult)
    (fuel a : Nat) (p : AssistantMsg) (c : ℚ) (u : Usage)
    (happ : verApproved verR a = true) :
    MavHard.verificationLoop execP verR (fuel + 1) a p c u =
      ⟨p, (MavHard.callVerifier (verR a)).verdict, a,
        c + (MavHard.callVerifier (verR a)).cost,
        addOptUsage u (MavHard.callVerifier (verR a)).usage⟩ := by
  simp [MavHard.verificationLoop, verApproved_eq, happ]

/-- Exiting the verification loop with the attempt budget spent. -/
lemma loop_exit_max (execP : Nat → AssistantMsg) (verR : Nat → GenResult)
    (fuel a : Nat) (p : AssistantMsg) (c : ℚ) (u : Usage)
    (hrej : verApproved verR a = false) (ha : MavHard.maxAttempts ≤ a) :
    MavHard.verificationLoop execP verR (fuel + 1) a p c u =
      ⟨p, (MavHard.callVerifier (verR a)).verdict, a,
        c + (MavHard.callVerifier (verR a)).cost,
        addOptUsage u (MavHard.callVerifier (verR a)).usage⟩ := by
  simp [MavHard.verificationLoop, verApproved_eq, hrej, ha]

/-- Retrying after a rejection: costs of the verifier call and of the
rejected proposal are accumulated and the next executor proposal is tried. -/
lemma loop_step_rejected (execP : Nat → AssistantMsg) (verR : Nat → GenResult)
    (fuel a : Nat) (p : AssistantMsg) (c : ℚ) (u : Usage)
    (hrej : verApproved verR a = false) (ha : a < MavHard.maxAttempts) :
    MavHard.verificationLoop execP verR (fuel + 1) a p c u =
      MavHard.verificationLoop execP verR fuel (a + 1) (execP (a + 1))
        (addTruthyCost (c + (MavHard.callVerifier (verR a)).cost) p.cost)
        (addOptUsage (addOptUsage u (MavHard.callVerifier (verR a)).usage) p.usage) := by
  simp [MavHard.verificationLoop, verApproved_eq, hrej, Nat.not_le.mpr ha]

/-- The loop's exit attempt never exceeds the attempt budget. -/
lemma loop_attempt_le (execP : Nat → AssistantMsg) (verR : Nat → GenResult) :
    ∀ (fuel a : Nat) (p : AssistantMsg) (c : ℚ) (u : Usage),
      a ≤ MavHard.maxAttempts →
      (MavHard.verificationLoop execP verR fuel a p c u).attempt ≤ MavHard.maxAttempts := by
  intro fuel
  induction fuel with
  | zero =>
    intro a p c u h
    simpa [MavHard.verificationLoop] using h
  | succ n ih =>
    intro a p c u h
    by_cases h1 : verApproved verR a = true
    · rw [loop_exit_approved _ _ _ _ _ _ _ h1]
      exact h
    · by_cases h2 : MavHard.maxAttempts ≤ a
      · rw [loop_exit_max _ _ _ _ _ _ _ (by simpa using h1) h2]
        exact h
      · rw [loop_step_rejected _ _ _ _ _ _ _ (by simpa using h1) (by omega)]
        exact ih (a + 1) _ _ _ (by omega)

/-- Full characterization of a loop run from attempt `a` (with the proposal
of executor call `a` in hand) whose first approved attempt is `k`:
the loop exits at attempt `k` with proposal `k`, having accumulated the
verifier costs of attempts `a..k` and the rejected proposals' costs of
attempts `a..k-1`. -/
lemma loop_run_first_approved (execP : Nat → AssistantMsg) (verR : Nat → GenResult) :
    ∀ (fuel a : Nat) (c : ℚ) (u : Usage) (k : Nat),
      MavHard.maxAttempts + 1 ≤ a + fuel → a ≤ k → k ≤ MavHard.maxAttempts →
      verApproved verR k = true →
      (∀ j, a ≤ j → j < k → verApproved verR j = false) →
      MavHard.verificationLoop execP verR fuel a (execP a) c u =
        ⟨execP k, (MavHard.callVerifier (verR k)).verdict, k,
          c + (∑ j ∈ Finset.Ico a (k + 1), (MavHard.callVerifier (verR j)).cost)
            + (∑ j ∈ Finset.Ico a k, (execP j).cost.getD 0),
          u.addU ⟨(∑ j ∈ Finset.Ico a (k + 1), (usageOf (MavHard.callVerifier (verR j)).usage).promptTokens)
              + (∑ j ∈ Finset.Ico a k, (usageOf (execP j).usage).promptTokens),
            (∑ j ∈ Finset.Ico a (k + 1), (usageOf (MavHard.callVerifier (verR j)).usage).completionTokens)
              + (∑ j ∈ Finset.Ico a k, (usageOf (execP j).usage).completionTokens)⟩⟩ := by
  intro fuel
  induction fuel with
  | zero =>
    intro a c u k hfa hak hk5 _ _
    omega
  | succ n ih =>
    intro a c u k hfa hak hk5 happ hrej
    by_cases hka : k = a
    · subst hka
      rw [loop_exit_approved _ _ _ _ _ _ _ happ]
      simp [Finset.Ico_self, Finset.sum_Ico_eq_sum_range, addOptUsage_eq, Usage.addU]
    · have hrej_a : verApproved verR a = false := hrej a le_rfl (by omega)
      rw [loop_step_rejected _ _ _ _ _ _ _ hrej_a (by omega)]
      rw [ih (a + 1) _ _ k (by omega) (by omega) hk5 happ
        (fun j hj1 hj2 => hrej j (by omega) hj2)]
      have hmem1 : a < k + 1 := by omega
      have hmem2 : a < k := by omega
      rw [Finset.sum_eq_sum_Ico_succ_bot hmem1, Finset.sum_eq_sum_Ico_succ_bot hmem2,
        Finset.sum_eq_sum_Ico_succ_bot hmem1, Finset.sum_eq_sum_Ico_succ_bot hmem2,
        Finset.sum_eq_sum_Ico_succ_bot hmem1, Finset.sum_eq_sum_Ico_succ_bot hmem2]
      rw [addTruthyCost_eq, addOptUsage_eq, addOptUsage_eq]
      simp only [MavHard.LoopOut.mk.injEq, Usage.addU, Usage.mk.injEq, true_and]
      refine ⟨by ring, by ring, by ring⟩

/-- Full characterization of a loop run from attempt `a` none of whose
attempts is approved: the loop exits at the attempt budget with the last
proposal, having accumulated all verifier costs and all but the last
proposal's cost. -/
lemma loop_run_all_rejected (execP : Nat → AssistantMsg) (verR : Nat → GenResult) :
    ∀ (fuel a : Nat) (c : ℚ) (u : Usage),
      MavHard.maxAttempts + 1 ≤ a + fuel → 1 ≤ a → a ≤ MavHard.maxAttempts →
      (∀ j, a ≤ j → j ≤ MavHard.maxAttempts → verApproved verR j = false) →
      MavHard.verificationLoop execP verR fuel a (execP a) c u =
        ⟨execP MavHard.maxAttempts, (MavHard.callVerifier (verR MavHard.maxAttempts)).verdict,
          MavHard.maxAttempts,
          c + (∑ j ∈ Finset.Ico a (MavHard.maxAttempts + 1), (MavHard.callVerifier (verR j)).cost)
            + (∑ j ∈ Finset.Ico a MavHard.maxAttempts, (execP j).cost.getD 0),
          u.addU ⟨(∑ j ∈ Finset.Ico a (MavHard.maxAttempts + 1), (usageOf (MavHard.callVerifier (verR j)).usage).promptTokens)
              + (∑ j ∈ Finset.Ico a MavHard.maxAttempts, (usageOf (execP j).usage).promptTokens),
            (∑ j ∈ Finset.Ico a (MavHard.maxAttempts + 1), (usageOf (MavHard.callVerifier (verR j)).usage).completionTokens)
              + (∑ j ∈ Finset.Ico a MavHard.maxAttempts, (usageOf (execP j).usage).completionTokens)⟩⟩ := by
  intro fuel
  induction fuel with
  | zero =>
    intro a c u hfa _ ha5 _
    omega
  | succ n ih =>
    intro a c u hfa ha1 ha5 hrej
    by_cases hka : a = MavHard.maxAttempts
    · subst hka
      rw [loop_exit_max _ _ _ _ _ _ _ (hrej _ le_rfl le_rfl) le_rfl]
      simp [Finset.Ico_self, addOptUsage_eq, Usage.addU]
    · have hrej_a : verApproved verR a = false := hrej a le_rfl ha5
      rw [loop_step_rejected _ _ _ _ _ _ _ hrej_a (by omega)]
      rw [ih (a + 1) _ _ (by omega) (by omega) (by omega)
        (fun j hj1 hj2 => hrej j (by omega) hj2)]
      have hmem1 : a < MavHard.maxAttempts + 1 := by omega
      have hmem2 : a < MavHard.maxAttempts := by omega
      rw [Finset.sum_eq_sum_Ico_succ_bot hmem1, Finset.sum_eq_sum_Ico_succ_bot hmem2,
        Finset.sum_eq_sum_Ico_succ_bot hmem1, Finset.sum_eq_sum_Ico_succ_bot hmem2,
        Finset.sum_eq_sum_Ico_succ_bot hmem1, Finset.sum_eq_sum_Ico_succ_bot hmem2]
      rw [addTruthyCost_eq, addOptUsage_eq, addOptUsage_eq]
      simp only [MavHard.LoopOut.mk.injEq, Usage.addU, Usage.mk.injEq, true_and]
      refine ⟨by ring, by ring, by ring⟩

/-- Overwriting all entries of key `k` leaves a lookup of `k` at the new
value, provided some entry with key `k` exists. -/
lemma getMeta_map_set (k : String) (v : MetaVal) :
    ∀ m : List (String × MetaVal), m.any (fun p => p.1 = k) = true →
      getMeta (m.map (fun p => if p.1 = k then (k, v) else p)) k = some v := by
  intro m
  induction m with
  | nil => simp
  | cons hd tl ih =>
    intro h
    obtain ⟨a, b⟩ := hd
    rw [List.map_cons]
    by_cases hh : a = k
    · rw [if_pos hh]
      simp [getMeta]
    · rw [if_neg hh]
      have htl : tl.any (fun p => p.1 = k) = true := by
        simpa [List.any_cons, hh] using h
      simp [getMeta, hh, ih htl]

/-- Appending a fresh entry makes its key look up to its value when no
earlier entry has that key. -/
lemma getMeta_append_set (k : String) (v : MetaVal) :
    ∀ m : List (String × MetaVal), m.any (fun p => p.1 = k) = false →
      getMeta (m ++ [(k, v)]) k = some v := by
  intro m
  induction m with
  | nil => simp [getMeta]
  | cons hd tl ih =>
    intro h
    obtain ⟨a, b⟩ := hd
    have hh : ¬ a = k := by
      intro hk
      simp [List.any_cons, hk] at h
    have htl : tl.any (fun p => p.1 = k) = false := by
      simpa [List.any_cons, hh] using h
    simp [getMeta, hh, ih htl]

/-- Python dict assignment then lookup of the same key yields the assigned
value. -/
lemma getMeta_setMeta_self (m : List (String × MetaVal)) (k : String) (v : MetaVal) :
    getMeta (setMeta m k v) k = some v := by
  unfold setMeta
  by_cases h : m.any (fun p => p.1 = k) = true
  · simp only [h, if_true]
    exact getMeta_map_set k v m h
  · simp only [eq_false_of_ne_true h, Bool.false_eq_true, if_false]
    exact getMeta_append_set k v m (eq_false_of_ne_true h)

/-- Rewriting the entries of one key leaves lookups of other keys
unchanged (the rewritten entries keep their key). -/
lemma getMeta_map_set_other (k k' : String) (v : MetaVal) (h : k' ≠ k) :
    ∀ m : List (String × MetaVal),
      getMeta (m.map (fun p => if p.1 = k' then (k', v) else p)) k = getMeta m k := by
  intro m
  induction m with
  | nil => simp [getMeta]
  | cons hd tl ih =>
    obtain ⟨a, b⟩ := hd
    rw [List.map_cons]
    by_cases hh : a = k'
    · rw [if_pos hh]
      have hk : ¬ a = k := by
        rw [hh]
        exact h
      simp [getMeta, h, hk, ih]
    · rw [if_neg hh]
      by_cases hk : a = k
      · simp [getMeta, hk]
      · simp [getMeta, hk, ih]

/-- Appending an entry of one key leaves lookups of other keys unchanged. -/
lemma getMeta_append_other (k k' : String) (v : MetaVal) (h : k' ≠ k) :
    ∀ m : List (String × MetaVal), getMeta (m ++ [(k', v)]) k = getMeta m k := by
  intro m
  induction m with
  | nil => simp [getMeta, h]
  | cons hd tl ih =>
    obtain ⟨a, b⟩ := hd
    by_cases hk : a = k
    · simp [getMeta, hk]
    · simp [getMeta, hk, ih]

/-- Python dict assignment leaves lookups of other keys unchanged. -/
lemma getMeta_setMeta_other (m : List (String × MetaVal)) (k k' : String) (v : MetaVal)
    (h : k' ≠ k) : getMeta (setMeta m k' v) k = getMeta m k := by
  unfold setMeta
  by_cases ha : m.any (fun p => p.1 = k') = true
  · simp only [ha, if_true]
    exact getMeta_map_set_other k k' v h m
  · simp only [eq_false_of_ne_true ha, Bool.false_eq_true, if_false]
    exact getMeta_append_other k k' v h m

/-- A nonempty needle is no prefix of the empty list. -/
lemma isPrefixOf_nil_false (a : Char) (as : List Char) :
    (a :: as).isPrefixOf ([] : List Char) = false := rfl

/-- Two needles with different head characters are never both prefixes of
the same list. -/
lemma pre_head_ne_exclusive (a c : Char) (as cs l : List Char) (hac : a ≠ c) :
    (a :: as).isPrefixOf l = true → (c :: cs).isPrefixOf l = true → False := by
  cases l with
  | nil =>
    intro h1 _
    simp [isPrefixOf_nil_false] at h1
  | cons x xs =>
    intro h1 h2
    have e1 : (a == x && as.isPrefixOf xs) = true := h1
    have e2 : (c == x && cs.isPrefixOf xs) = true := h2
    have ha : a = x := by
      have := (Bool.and_eq_true _ _).mp e1
      exact beq_iff_eq.mp this.1
    have hc : c = x := by
      have := (Bool.and_eq_true _ _).mp e2
      exact beq_iff_eq.mp this.1
    exact hac (ha.trans hc.symm)

/-- A prefix of a list is in particular a substring of it. -/
lemma isSubChars_of_isPrefixOf (n : List Char) :
    ∀ h : List Char, n.isPrefixOf h = true → isSubChars n h = true := by
  intro h
  cases h with
  | nil =>
    intro hp
    cases n with
    | nil => rfl
    | cons a as => simp [isPrefixOf_nil_false] at hp
  | cons c cs =>
    intro hp
    simp [isSubChars, hp]

/-- When the stripped response is empty, the uppercased first line is empty. -/
lemma upperFirstLine_of_empty (s : String) (h : (stripChars s.data).isEmpty = true) :
    upperFirstLine s = [] := by
  unfold upperFirstLine
  rw [List.isEmpty_iff.mp h]
  rfl

/-- Branch normal form of `parseVerdict` on a non-blank response. -/
lemma parseVerdict_verdict_eq (s : String) (h : (stripChars s.data).isEmpty = false) :
    (parseVerdict s).verdict =
      (if "APPROVE".data.isPrefixOf (upperFirstLine s) then VKind.approve
       else if "REJECT".data.isPrefixOf (upperFirstLine s) then VKind.reject
       else if "SUGGEST".data.isPrefixOf (upperFirstLine s) then VKind.suggest
       else if isSubChars "REJECT".data (upperFirstLine s) then VKind.reject
       else if isSubChars "SUGGEST".data (upperFirstLine s) then VKind.suggest
       else if isSubChars "APPROVE".data (upperFirstLine s) then VKind.approve
       else VKind.approve) := by
  simp only [parseVerdict, upperFirstLine, h, Bool.false_eq_true, if_false]
  split_ifs <;> rfl

/-- Claim C7 — Verdict parsing: the parsed verdict is determined by the
first non-blank line of the response, uppercased, matched by prefix against
APPROVE/REJECT/SUGGEST first and by substring as a fallback; an empty,
whitespace-only, or unmatchable response parses to approve; the parse is
total and only an approve verdict counts as approved. -/
theorem verifier_verdict_parsing (s : String) :
    ((stripChars s.data).isEmpty = true → (parseVerdict s).verdict = VKind.approve) ∧
    ("APPROVE".data.isPrefixOf (upperFirstLine s) = true →
      (parseVerdict s).verdict = VKind.approve) ∧
    ("REJECT".data.isPrefixOf (upperFirstLine s) = true →
      (parseVerdict s).verdict = VKind.reject) ∧
    ("SUGGEST".data.isPrefixOf (upperFirstLine s) = true →
      (parseVerdict s).verdict = VKind.suggest) ∧
    ("APPROVE".data.isPrefixOf (upperFirstLine s) = false →
      "REJECT".data.isPrefixOf (upperFirstLine s) = false →
      "SUGGEST".data.isPrefixOf (upperFirstLine s) = false →
      (isSubChars "REJECT".data (upperFirstLine s) = true →
        (parseVerdict s).verdict = VKind.reject) ∧
      (isSubChars "REJECT".data (upperFirstLine s) = false →
        isSubChars "SUGGEST".data (upperFirstLine s) = true →
        (parseVerdict s).verdict = VKind.suggest) ∧
      (isSubChars "REJECT".data (upperFirstLine s) = false →
        isSubChars "SUGGEST".data (upperFirstLine s) = false →
        isSubChars "APPROVE".data (upperFirstLine s) = true →
        (parseVerdict s).verdict = VKind.approve)) ∧
    (isSubChars "APPROVE".data (upperFirstLine s) = false →
      isSubChars "REJECT".data (upperFirstLine s) = false →
      isSubChars "SUGGEST".data (upperFirstLine s) = false →
      (parseVerdict s).verdict = VKind.approve) ∧
    ((parseVerdict s).isApproved = true ↔ (parseVerdict s).verdict = VKind.approve) := by
  refine ⟨?_, ?_, ?_, ?_, ?_, ?_, ?_⟩
  · intro h
    simp [parseVerdict, h]
  · intro hpre
    by_cases hse : (stripChars s.data).isEmpty = true
    · rw [upperFirstLine_of_empty s hse] at hpre
      exact absurd hpre (by decide)
    · rw [parseVerdict_verdict_eq s (eq_false_of_ne_true hse)]
      simp [hpre]
  · intro hpre
    by_cases hse : (stripChars s.data).isEmpty = true
    · rw [upperFirstLine_of_empty s hse] at hpre
      exact absurd hpre (by decide)
    · have hnotA : "APPROVE".data.isPrefixOf (upperFirstLine s) = false := by
        cases hA : "APPROVE".data.isPrefixOf (upperFirstLine s) with
        | false => rfl
        | true =>
          exact (pre_head_ne_exclusive 'A' 'R' "PPROVE".data "EJECT".data
            (upperFirstLine s) (by decide) hA hpre).elim
      rw [parseVerdict_verdict_eq s (eq_false_of_ne_true hse)]
      simp [hnotA, hpre]
  · intro hpre
    by_cases hse : (stripChars s.data).isEmpty = true
    · rw [upperFirstLine_of_empty s hse] at hpre
      exact absurd hpre (by decide)
    · have hnotA : "APPROVE".data.isPrefixOf (upperFirstLine s) = false := by
        cases hA : "APPROVE".data.isPrefixOf (upperFirstLine s) with
        | false => rfl
        | true =>
          exact (pre_head_ne_exclusive 'A' 'S' "PPROVE".data "UGGEST".data
            (upperFirstLine s) (by decide) hA hpre).elim
      have hnotR : "REJECT".data.isPrefixOf (upperFirstLine s) = false := by
        cases hR : "REJECT".data.isPrefixOf (upperFirstLine s) with
        | false => rfl
        | true =>
          exact (pre_head_ne_exclusive 'R' 'S' "EJECT".data "UGGEST".data
            (upperFirstLine s) (by decide) hR hpre).elim
      rw [parseVerdict_verdict_eq s (eq_false_of_ne_true hse)]
      simp [hnotA, hnotR, hpre]
  · intro hA hR hS
    refine ⟨?_, ?_, ?_⟩
    · intro hsub
      by_cases hse : (stripChars s.data).isEmpty = true
      · rw [upperFirstLine_of_empty s hse] at hsub
        exact absurd hsub (by decide)
      · rw [parseVerdict_verdict_eq s (eq_false_of_ne_true hse)]
        simp [hA, hR, hS, hsub]
    · intro hsubR hsub
      by_cases hse : (stripChars s.data).isEmpty = true
      · rw [upperFirstLine_of_empty s hse] at hsub
        exact absurd hsub (by decide)
      · rw [parseVerdict_verdict_eq s (eq_false_of_ne_true hse)]
        simp [hA, hR, hS, hsubR, hsub]
    · intro hsubR hsubS hsub
      by_cases hse : (stripChars s.data).isEmpty = true
      · rw [upperFirstLine_of_empty s hse] at hsub
        exact absurd hsub (by decide)
      · rw [parseVerdict_verdict_eq s (eq_false_of_ne_true hse)]
        simp [hA, hR, hS, hsubR, hsubS, hsub]
  · intro hsA hsR hsS
    by_cases hse : (stripChars s.data).isEmpty = true
    · simp [parseVerdict, hse]
    · have hA : "APPROVE".data.isPrefixOf (upperFirstLine s) = false := by
        cases h' : "APPROVE".data.isPrefixOf (upperFirstLine s) with
        | false => rfl
        | true => simp [isSubChars_of_isPrefixOf _ _ h'] at hsA
      have hR : "REJECT".data.isPrefixOf (upperFirstLine s) = false := by
        cases h' : "REJECT".data.isPrefixOf (upperFirstLine s) with
        | false => rfl
        | true => simp [isSubChars_of_isPrefixOf _ _ h'] at hsR
      have hS : "SUGGEST".data.isPrefixOf (upperFirstLine s) = false := by
        cases h' : "SUGGEST".data.isPrefixOf (upperFirstLine s) with
        | false => rfl
        | true => simp [isSubChars_of_isPrefixOf _ _ h'] at hsS
      rw [parseVerdict_verdict_eq s (eq_false_of_ne_true hse)]
      simp [hA, hR, hS, hsA, hsR, hsS]
  · constructor
    · intro h
      cases hv : (parseVerdict s).verdict with
      | approve => rfl
      | reject => rw [VerifierVerdict.isApproved, hv] at h; exact absurd h (by decide)
      | suggest => rw [VerifierVerdict.isApproved, hv] at h; exact absurd h (by decide)
    · intro h
      rw [VerifierVerdict.isApproved, h]
      decide

/-- Witness for C7 at concrete inputs: a response whose first line starts
with `reject` parses to a rejection, and an unmatchable response parses to
an approval. -/
theorem verifier_verdict_parsing_witness :
    (parseVerdict "  reject: not allowed\nbecause").verdict = VKind.reject ∧
    (parseVerdict "gibberish").verdict = VKind.approve :=
  ⟨(verifier_verdict_parsing "  reject: not allowed\nbecause").2.2.1 (by decide),
   (verifier_verdict_parsing "gibberish").2.2.2.2.2.1 (by decide) (by decide) (by decide)⟩

/-- The cost/usage merge leaves content untouched. -/
lemma mergeExtras_content (m : AssistantMsg) (c : ℚ) (u : Usage) :
    (mergeExtras m c u).content = m.content := rfl

/-- The cost/usage merge leaves tool calls untouched. -/
lemma mergeExtras_toolCalls (m : AssistantMsg) (c : ℚ) (u : Usage) :
    (mergeExtras m c u).toolCalls = m.toolCalls := rfl

/-- The guarded planner merge leaves content untouched. -/
lemma mergeGuarded_content (m : AssistantMsg) (c : ℚ) (u : Usage) :
    (mergeGuarded m c u).content = m.content := by
  unfold mergeGuarded
  split_ifs <;> rfl

/-- The guarded planner merge leaves tool calls untouched. -/
lemma mergeGuarded_toolCalls (m : AssistantMsg) (c : ℚ) (u : Usage) :
    (mergeGuarded m c u).toolCalls = m.toolCalls := by
  unfold mergeGuarded
  split_ifs <;> rfl

/-- The guarded planner merge leaves metadata untouched. -/
lemma mergeGuarded_metadata (m : AssistantMsg) (c : ℚ) (u : Usage) :
    (mergeGuarded m c u).metadata = m.metadata := by
  unfold mergeGuarded
  split_ifs <;> rfl

/-- After the safety net, a message has truthy content or a nonempty
tool-call list, provided the fallback text is nonempty. -/
lemma safetyNet_nonempty (f : String) (m : AssistantMsg) (hf : f.isEmpty = false) :
    (truthyStr (safetyNet f m).content || (safetyNet f m).isToolCall) = true := by
  unfold safetyNet
  by_cases hb : (!truthyStr m.content && !m.isToolCall) = true
  · rw [if_pos hb]
    simp [truthyStr, AssistantMsg.isToolCall, hf]
  · rw [if_neg hb]
    cases ha : truthyStr m.content
    · cases hbb : m.isToolCall
      · exact absurd (by simp [ha, hbb]) hb
      · simp [hbb]
    · simp [ha]

/-- Claim C8 — Router fallback determinism and fail-open: a classification
response containing none of the canonical tokens and none of the synonyms
resolves to the documented fallback category (`service_issue` for the
three-tier variants, `infrastructure_issue` for the two-tier variant), as
the concrete response `"XYZ nonsense"` does; a raised generation failure
inside the router likewise yields the fallback; the routing functions are
total, never raising to the caller. -/
theorem router_fallback_determinism (t : String) (c : Option ℚ) (u : Option Usage) :
    (isSubChars "mms".data t.data = false →
      isSubChars "mobile_data".data t.data = false →
      isSubChars "data_issue".data t.data = false →
      isSubChars "service".data t.data = false →
      Mas3.classify t = IssueType3.service_issue) ∧
    (isSubChars "infrastructure".data t.data = false →
      isSubChars "application".data t.data = false →
      isSubChars "service_issue".data t.data = false →
      isSubChars "service".data t.data = false →
      isSubChars "mobile_data".data t.data = false →
      isSubChars "mms".data t.data = false →
      isSubChars "data".data t.data = false →
      Mas2.classify t = IssueType2.infrastructure_issue) ∧
    (isSubChars "mms_issue".data t.data = false →
      isSubChars "mms".data t.data = false →
      isSubChars "mobile_data_issue".data t.data = false →
      isSubChars "mobile_data".data t.data = false →
      isSubChars "data".data t.data = false →
      isSubChars "service_issue".data t.data = false →
      isSubChars "service".data t.data = false →
      Paper.classify t = IssueType3.service_issue) ∧
    Mas3.route_to_agent (Except.ok ⟨some "XYZ nonsense", c, u⟩) = IssueType3.service_issue ∧
    Mas2.route_to_agent (Except.ok ⟨some "XYZ nonsense", c, u⟩) = IssueType2.infrastructure_issue ∧
    Paper.route_to_agent (Except.ok ⟨some "XYZ nonsense", c, u⟩) = IssueType3.service_issue ∧
    Mas3.route_to_agent (Except.error ()) = IssueType3.service_issue ∧
    Mas2.route_to_agent (Except.error ()) = IssueType2.infrastructure_issue ∧
    Paper.route_to_agent (Except.error ()) = IssueType3.service_issue := by
  refine ⟨?_, ?_, ?_, rfl, rfl, rfl, rfl, rfl, rfl⟩
  · intro h1 h2 h3 h4
    have hne1 : ¬ t = "mms_issue" := by
      intro he
      rw [he] at h1
      exact absurd h1 (by decide)
    have hne2 : ¬ t = "mobile_data_issue" := by
      intro he
      rw [he] at h2
      exact absurd h2 (by decide)
    have hne3 : ¬ t = "service_issue" := by
      intro he
      rw [he] at h4
      exact absurd h4 (by decide)
    simp [Mas3.classify, hne1, hne2, hne3, h1, h2, h3, h4]
  · intro h1 h2 h3 h4 h5 h6 h7
    have hne1 : ¬ t = "infrastructure_issue" := by
      intro he
      rw [he] at h1
      exact absurd h1 (by decide)
    have hne2 : ¬ t = "application_issue" := by
      intro he
      rw [he] at h2
      exact absurd h2 (by decide)
    simp [Mas2.classify, hne1, hne2, h1, h2, h3, h4, h5, h6, h7]
  · intro h1 h2 h3 h4 h5 h6 h7
    simp [Paper.classify, h1, h2, h3, h4, h5, h6, h7]

/-- Witness for C8: the concrete unmatchable (lowered) response
`"xyz nonsense"` resolves to the fallback category in all three variants. -/
theorem router_fallback_determinism_witness :
    Mas3.classify "xyz nonsense" = IssueType3.service_issue ∧
    Mas2.classify "xyz nonsense" = IssueType2.infrastructure_issue ∧
    Paper.classify "xyz nonsense" = IssueType3.service_issue :=
  ⟨(router_fallback_determinism "xyz nonsense" none none).1
      (by decide) (by decide) (by decide) (by decide),
   (router_fallback_determinism "xyz nonsense" none none).2.1
      (by decide) (by decide) (by decide) (by decide) (by decide) (by decide) (by decide),
   (router_fallback_determinism "xyz nonsense" none none).2.2.1
      (by decide) (by decide) (by decide) (by decide) (by decide) (by decide) (by decide)⟩

/-- Claim C6 (amended) — Routing activation policy: the first-message-only
variant (paper_multi_agent) invokes the Router exactly when `is_routed` is
still false — that is, on the first incoming message of any role — and
latches `is_routed` forever after, so no later message of any role
triggers another invocation; the re-routing variants (mas_2, mas_3)
invoke the Router on every `User` message and never on `Tool` or
`MultiTool` messages. -/
theorem router_activation_policy (routerR : GenResult) (execMsg : AssistantMsg)
    (message : AgentInput) (stP : Paper.MultiAgentState) (stB : Mas2.MAS2State)
    (stT : Mas3.MultiAgentState) :
    (Paper.generate_next_message routerR execMsg message stP).2.2.routerCalls
        = (if stP.is_routed then 0 else 1) ∧
    (Paper.generate_next_message routerR execMsg message stP).2.1.is_routed = true ∧
    (Mas2.generate_next_message routerR execMsg message stB).2.2.routerCalls
        = (if message.isUser then 1 else 0) ∧
    (Mas3.generate_next_message routerR execMsg message stT).2.routerCalls
        = (if message.isUser then 1 else 0) := by
  refine ⟨?_, ?_, ?_, ?_⟩
  · by_cases h : stP.is_routed
    · simp [Paper.generate_next_message, h]
    · simp [Paper.generate_next_message, h]
  · by_cases h : stP.is_routed
    · simp [Paper.generate_next_message, h]
    · simp [Paper.generate_next_message, h]
  · by_cases h : message.isUser
    · simp [Mas2.generate_next_message, h]
    · simp [Mas2.generate_next_message, h]
  · by_cases h : message.isUser
    · simp [Mas3.generate_next_message, h]
    · rcases hca : stT.current_agent with _ | a
      · simp [Mas3.generate_next_message, h, hca]
      · simp [Mas3.generate_next_message, h, hca]

/-- Counterexample to C6 as stated: on the first-message-only variant, a
`Tool` message arriving first (before any `User` message) still triggers a
Router invocation — the Router is invoked on the first message of any
role, not only on `User` messages. -/
theorem router_activation_counterexample :
    (Paper.generate_next_message (Except.error ())
        ⟨some "hi", none, none, none, none⟩
        (AgentInput.tool ⟨"c1", some "res", false⟩)
        (Paper.get_init_state [])).2.2.routerCalls = 1 ∧
    (AgentInput.tool ⟨"c1", some "res", false⟩).isUser = false ∧
    (1 : Nat) ≠ 0 := by
  refine ⟨rfl, rfl, by decide⟩

/-- A proposal with truthy content passes the safety net unchanged. -/
lemma safetyNet_of_truthy (f : String) (m : AssistantMsg)
    (h : truthyStr m.content = true) : safetyNet f m = m := by
  unfold safetyNet
  rw [if_neg]
  simp [h]

/-- Claim C5 (amended) — Empty-proposal safety net: only the adaptive
planner driver and the two-tier router driver enforce the never-neither
direction — their returned messages always have nonempty content or a
nonempty tool-call list, an empty executor proposal being replaced by the
clarification fallback — and a proposal with truthy content passes
through them with content and tool calls unchanged.  No other driver has
a net, and none suppresses a proposal carrying both content and tool
calls: map_static, paper_multi_agent and mas_3 return the executor's
content and tool-call list unchanged whatever their shape (in particular
an empty proposal is returned as-is — see the counterexample), and
mav_hard returns its first approved proposal's content and tool calls
unchanged, empty or not. -/
theorem returned_message_nonempty (policy : String) (initR replanR routerR : GenResult)
    (execMsg : AssistantMsg) (message : AgentInput)
    (stA : MapAdaptive.MAPAdaptiveState) (stB : Mas2.MAS2State)
    (stS : MapStatic.MAPStaticState) (stP : Paper.MultiAgentState)
    (stT : Mas3.MultiAgentState) (toolNames : List String)
    (execP : Nat → AssistantMsg) (verR : Nat → GenResult)
    (stV : MavHard.MAVHardState) :
    (truthyStr (MapAdaptive.generate_next_message policy initR replanR execMsg
          message stA).1.content ||
      (MapAdaptive.generate_next_message policy initR replanR execMsg
          message stA).1.isToolCall) = true ∧
    (truthyStr (Mas2.generate_next_message routerR execMsg message stB).1.content ||
      (Mas2.generate_next_message routerR execMsg message stB).1.isToolCall) = true ∧
    (truthyStr execMsg.content = true →
      (MapAdaptive.generate_next_message policy initR replanR execMsg
          message stA).1.content = execMsg.content ∧
      (MapAdaptive.generate_next_message policy initR replanR execMsg
          message stA).1.toolCalls = execMsg.toolCalls) ∧
    (truthyStr execMsg.content = true →
      (Mas2.generate_next_message routerR execMsg message stB).1.content
        = execMsg.content ∧
      (Mas2.generate_next_message routerR execMsg message stB).1.toolCalls
        = execMsg.toolCalls) ∧
    ((MapStatic.generate_next_message policy initR execMsg message stS).1.content
        = execMsg.content ∧
      (MapStatic.generate_next_message policy initR execMsg message stS).1.toolCalls
        = execMsg.toolCalls) ∧
    ((Paper.generate_next_message routerR execMsg message stP).1.content
        = execMsg.content ∧
      (Paper.generate_next_message routerR execMsg message stP).1.toolCalls
        = execMsg.toolCalls) ∧
    (∀ (m : AssistantMsg) (st' : Mas3.MultiAgentState),
      (Mas3.generate_next_message routerR execMsg message stT).1 = some (m, st') →
      m.content = execMsg.content ∧ m.toolCalls = execMsg.toolCalls) ∧
    (∀ k, 1 ≤ k → k ≤ 5 → verApproved verR k = true →
      (∀ j, 1 ≤ j → j < k → verApproved verR j = false) →
      (MavHard.generate_next_message toolNames execP verR message stV).1.content
        = (execP k).content ∧
      (MavHard.generate_next_message toolNames execP verR message stV).1.toolCalls
        = (execP k).toolCalls) := by
  refine ⟨?_, ?_, ?_, ?_, ?_, ?_, ?_, ?_⟩
  · have h1 : (MapAdaptive.generate_next_message policy initR replanR execMsg
        message stA).1.content = (safetyNet MapAdaptive.emptyFallbackContent execMsg).content := by
      simp [MapAdaptive.generate_next_message, mergeGuarded_content]
    have h2 : (MapAdaptive.generate_next_message policy initR replanR execMsg
        message stA).1.toolCalls = (safetyNet MapAdaptive.emptyFallbackContent execMsg).toolCalls := by
      simp [MapAdaptive.generate_next_message, mergeGuarded_toolCalls]
    rw [AssistantMsg.isToolCall, h1, h2, ← AssistantMsg.isToolCall]
    exact safetyNet_nonempty _ _ (by decide)
  · have h1 : (Mas2.generate_next_message routerR execMsg message stB).1.content
        = (safetyNet Mas2.emptyFallbackContent execMsg).content := by
      simp [Mas2.generate_next_message]
    have h2 : (Mas2.generate_next_message routerR execMsg message stB).1.toolCalls
        = (safetyNet Mas2.emptyFallbackContent execMsg).toolCalls := by
      simp [Mas2.generate_next_message]
    rw [AssistantMsg.isToolCall, h1, h2, ← AssistantMsg.isToolCall]
    exact safetyNet_nonempty _ _ (by decide)
  · intro h
    constructor
    · simp [MapAdaptive.generate_next_message, mergeGuarded_content,
        safetyNet_of_truthy _ _ h]
    · simp [MapAdaptive.generate_next_message, mergeGuarded_toolCalls,
        safetyNet_of_truthy _ _ h]
  · intro h
    constructor
    · simp [Mas2.generate_next_message, safetyNet_of_truthy _ _ h]
    · simp [Mas2.generate_next_message, safetyNet_of_truthy _ _ h]
  · constructor
    · simp [MapStatic.generate_next_message, mergeGuarded_content]
    · simp [MapStatic.generate_next_message, mergeGuarded_toolCalls]
  · constructor
    · by_cases hr : stP.is_routed
      · simp [Paper.generate_next_message, hr]
      · simp [Paper.generate_next_message, hr]
    · by_cases hr : stP.is_routed
      · simp [Paper.generate_next_message, hr]
      · simp [Paper.generate_next_message, hr]
  · intro m st' h
    by_cases hu : message.isUser
    · simp only [Mas3.generate_next_message, hu, if_true] at h
      rw [Option.some.injEq, Prod.mk.injEq] at h
      obtain ⟨h1, _⟩ := h
      subst h1
      exact ⟨rfl, rfl⟩
    · rcases hca : stT.current_agent with _ | a
      · simp only [Mas3.generate_next_message, hu, Bool.false_eq_true, if_false, hca] at h
        exact Option.noConfusion h
      · simp only [Mas3.generate_next_message, hu, Bool.false_eq_true, if_false, hca] at h
        rw [Option.some.injEq, Prod.mk.injEq] at h
        obtain ⟨h1, _⟩ := h
        subst h1
        exact ⟨rfl, rfl⟩
  · intro k hk1 hk5 happ hrej
    have hmax : MavHard.maxAttempts = 5 := rfl
    have hout := loop_run_first_approved execP verR MavHard.maxAttempts 1 0 ⟨0, 0⟩ k
      (by omega) hk1 (by omega) happ (fun j hj1 hj2 => hrej j hj1 hj2)
    constructor <;>
      simp [MavHard.generate_next_message, hout, verApproved_eq, happ, mergeExtras]

/-- Witness for C5 at concrete inputs: an adaptive turn whose executor
proposal carries content returns that content unchanged. -/
theorem returned_message_nonempty_witness :
    truthyStr (⟨some "hi there", none, none, none, none⟩ : AssistantMsg).content = true ∧
    (MapAdaptive.generate_next_message "P" (Except.error ()) (Except.error ())
        ⟨some "hi there", none, none, none, none⟩
        (AgentInput.user ⟨some "u"⟩)
        (MapAdaptive.get_init_state "P" [])).1.content = some "hi there" :=
  ⟨by decide,
   ((returned_message_nonempty "P" (Except.error ()) (Except.error ()) (Except.error ())
      ⟨some "hi there", none, none, none, none⟩
      (AgentInput.user ⟨some "u"⟩)
      (MapAdaptive.get_init_state "P" []) (Mas2.get_init_state [])
      (MapStatic.get_init_state "P" []) (Paper.get_init_state [])
      (Mas3.get_init_state []) [] (fun _ => ⟨none, none, none, none, none⟩)
      (fun _ => Except.error ()) ⟨[], []⟩).2.2.1 (by decide)).1⟩

/-- Counterexample to C5 as stated: the static planner driver has no
safety net — an executor proposal with empty content and an empty
tool-call list is returned as-is, violating the nonempty-content-XOR-
nonempty-tool-calls invariant claimed for every driver. -/
theorem mutual_exclusivity_counterexample :
    truthyStr (MapStatic.generate_next_message "P" (Except.error ())
        ⟨none, some [], none, none, none⟩
        (AgentInput.user ⟨some "hi"⟩)
        (MapStatic.get_init_state "P" [])).1.content = false ∧
    (MapStatic.generate_next_message "P" (Except.error ())
        ⟨none, some [], none, none, none⟩
        (AgentInput.user ⟨some "hi"⟩)
        (MapStatic.get_init_state "P" [])).1.isToolCall = false := by
  refine ⟨rfl, rfl⟩

/-- Claim C10 — Unrouted metadata access: when the first incoming message
after `get_init_state` is a `Tool` or `MultiTool` message, the three-tier
re-routing driver (mas_3) never routes, leaves `current_agent` at `None`,
and its metadata line `state.current_agent.value` raises — the turn yields
no message — while the two-tier driver (mas_2) returns a message whose
`generated_by_agent` metadata is the placeholder `"unrouted"`. -/
theorem unrouted_first_tool_message (routerR : GenResult) (execMsg : AssistantMsg)
    (tm : ToolMsg) (tms : List ToolMsg) (hist : List HistMsg) :
    (Mas3.generate_next_message routerR execMsg (AgentInput.tool tm)
        (Mas3.get_init_state hist)).1 = none ∧
    (Mas3.generate_next_message routerR execMsg (AgentInput.multiTool tms)
        (Mas3.get_init_state hist)).1 = none ∧
    getMeta ((Mas2.generate_next_message routerR execMsg (AgentInput.tool tm)
        (Mas2.get_init_state hist)).1.metadata.getD [])
      "generated_by_agent" = some (MetaVal.str "unrouted") ∧
    getMeta ((Mas2.generate_next_message routerR execMsg (AgentInput.multiTool tms)
        (Mas2.get_init_state hist)).1.metadata.getD [])
      "generated_by_agent" = some (MetaVal.str "unrouted") := by
  refine ⟨?_, ?_, ?_, ?_⟩
  · simp [Mas3.generate_next_message, Mas3.get_init_state, AgentInput.isUser]
  · simp [Mas3.generate_next_message, Mas3.get_init_state, AgentInput.isUser]
  · simp only [Mas2.generate_next_message, Mas2.get_init_state, AgentInput.isUser,
      Bool.false_eq_true, if_false, Option.getD_some]
    rw [getMeta_setMeta_other _ _ _ _ (by decide), getMeta_setMeta_self]
  · simp only [Mas2.generate_next_message, Mas2.get_init_state, AgentInput.isUser,
      Bool.false_eq_true, if_false, Option.getD_some]
    rw [getMeta_setMeta_other _ _ _ _ (by decide), getMeta_setMeta_self]

/-- Claim C3 (amended) — Plan staleness schedule: once a plan exists, a
turn replans exactly when the incoming message carries a tool error or
`steps_since_replan` has reached the interval of 3 (so after exactly 3
error-free executor turns the next turn replans, and a tool error forces
a replan regardless of the counter); the replanning invocation precedes
the executor call; and on a replanning turn the counter is reset to 0
before the executor step and therefore equals 1 — not 0 — at the end of
the turn, while a non-replanning turn increments it by 1. -/
theorem adaptive_replan_schedule (policy : String) (initR replanR : GenResult)
    (execMsg : AssistantMsg) (message : AgentInput)
    (st : MapAdaptive.MAPAdaptiveState) (hgen : st.plan_generated = true) :
    ((MapAdaptive.generate_next_message policy initR replanR execMsg message st).2.2.replanned
      = (MapAdaptive.check_incoming_for_errors message ||
          decide (MapAdaptive.REPLAN_INTERVAL ≤ st.steps_since_replan))) ∧
    ((MapAdaptive.generate_next_message policy initR replanR execMsg message st).2.2.replanned = true →
      (MapAdaptive.generate_next_message policy initR replanR execMsg message st).2.2.seq
        = [RoleCall.planner, RoleCall.executor]) ∧
    ((MapAdaptive.generate_next_message policy initR replanR execMsg message st).2.1.steps_since_replan
      = (if (MapAdaptive.generate_next_message policy initR replanR execMsg message st).2.2.replanned
          then 1 else st.steps_since_replan + 1)) := by
  by_cases hcond : (MapAdaptive.check_incoming_for_errors message ||
      decide (MapAdaptive.REPLAN_INTERVAL ≤ st.steps_since_replan)) = true
  · refine ⟨?_, ?_, ?_⟩ <;>
      simp [MapAdaptive.generate_next_message, MapAdaptive.update_plan, hgen, hcond]
  · refine ⟨?_, ?_, ?_⟩ <;>
      simp [MapAdaptive.generate_next_message, MapAdaptive.update_plan, hgen, hcond]

/-- Witness for C3 at a concrete input: with a plan, no incoming error and
counter 3, the turn replans, the planner precedes the executor, and the
counter ends the turn at 1. -/
theorem adaptive_replan_schedule_witness :
    ((MapAdaptive.generate_next_message "P" (Except.error ())
        (Except.ok ⟨some "plan2", some 1, none⟩) ⟨some "ok", none, some 2, none, none⟩
        (AgentInput.user ⟨some "go"⟩)
        ⟨["sys"], [], some "plan1", true, 3, false⟩).2.2.seq
      = [RoleCall.planner, RoleCall.executor]) ∧
    ((MapAdaptive.generate_next_message "P" (Except.error ())
        (Except.ok ⟨some "plan2", some 1, none⟩) ⟨some "ok", none, some 2, none, none⟩
        (AgentInput.user ⟨some "go"⟩)
        ⟨["sys"], [], some "plan1", true, 3, false⟩).2.1.steps_since_replan = 1) :=
  ⟨(adaptive_replan_schedule "P" (Except.error ())
      (Except.ok ⟨some "plan2", some 1, none⟩) ⟨some "ok", none, some 2, none, none⟩
      (AgentInput.user ⟨some "go"⟩)
      ⟨["sys"], [], some "plan1", true, 3, false⟩ rfl).2.1 (by decide),
   by
    have h := (adaptive_replan_schedule "P" (Except.error ())
      (Except.ok ⟨some "plan2", some 1, none⟩) ⟨some "ok", none, some 2, none, none⟩
      (AgentInput.user ⟨some "go"⟩)
      ⟨["sys"], [], some "plan1", true, 3, false⟩ rfl).2.2
    simpa using h⟩

/-- Counterexample to C3 as stated: on a concrete turn whose replan
succeeds (plan text replaced by the planner's revision), the
`steps_since_replan` counter at the end of the turn is 1, not 0 — the
turn's own executor step is counted after the reset. -/
theorem replan_counter_counterexample :
    (MapAdaptive.generate_next_message "P" (Except.error ())
        (Except.ok ⟨some "plan2", some 1, none⟩) ⟨some "ok", none, some 2, none, none⟩
        (AgentInput.user ⟨some "go"⟩)
        ⟨["sys"], [], some "plan1", true, 3, false⟩).2.2.replanned = true ∧
    (MapAdaptive.generate_next_message "P" (Except.error ())
        (Except.ok ⟨some "plan2", some 1, none⟩) ⟨some "ok", none, some 2, none, none⟩
        (AgentInput.user ⟨some "go"⟩)
        ⟨["sys"], [], some "plan1", true, 3, false⟩).2.1.plan = some "plan2" ∧
    (MapAdaptive.generate_next_message "P" (Except.error ())
        (Except.ok ⟨some "plan2", some 1, none⟩) ⟨some "ok", none, some 2, none, none⟩
        (AgentInput.user ⟨some "go"⟩)
        ⟨["sys"], [], some "plan1", true, 3, false⟩).2.1.steps_since_replan = 1 ∧
    (1 : Nat) ≠ 0 := by
  refine ⟨rfl, rfl, rfl, by decide⟩

/-- Claim C4 (amended) — Replan failure handling: when the replanning
invocation fails, the previous plan text is preserved (the failure path
returns it), but `_update_plan` still runs: `steps_since_replan` is reset
to 0 — ending the turn at 1 rather than continuing its previous count —
and the executor preamble is rebuilt with the unchanged plan; a
successful replan replaces the plan text with the response content,
likewise resets the counter, and rebuilds the preamble with the new plan. -/
theorem replan_failure_atomicity (policy : String) (initR : GenResult)
    (execMsg : AssistantMsg) (message : AgentInput)
    (st : MapAdaptive.MAPAdaptiveState) (p : String)
    (hgen : st.plan_generated = true) (hplan : st.plan = some p)
    (htrig : (MapAdaptive.check_incoming_for_errors message ||
        decide (MapAdaptive.REPLAN_INTERVAL ≤ st.steps_since_replan)) = true) :
    ((MapAdaptive.generate_next_message policy initR (Except.error ()) execMsg
        message st).2.1.plan = some p ∧
      (MapAdaptive.generate_next_message policy initR (Except.error ()) execMsg
        message st).2.1.steps_since_replan = 1 ∧
      (MapAdaptive.generate_next_message policy initR (Except.error ()) execMsg
        message st).2.1.executor_system_messages
        = [MapAdaptive.build_executor_system_prompt policy (some p)]) ∧
    (∀ resp : GenResponse,
      (MapAdaptive.generate_next_message policy initR (Except.ok resp) execMsg
        message st).2.1.plan = some (resp.content.getD "") ∧
      (MapAdaptive.generate_next_message policy initR (Except.ok resp) execMsg
        message st).2.1.steps_since_replan = 1 ∧
      (MapAdaptive.generate_next_message policy initR (Except.ok resp) execMsg
        message st).2.1.executor_system_messages
        = [MapAdaptive.build_executor_system_prompt policy (some (resp.content.getD ""))]) := by
  constructor
  · refine ⟨?_, ?_, ?_⟩ <;>
      simp [MapAdaptive.generate_next_message, MapAdaptive.update_plan,
        callPlannerReplan, hgen, hplan, htrig]
  · intro resp
    refine ⟨?_, ?_, ?_⟩ <;>
      simp [MapAdaptive.generate_next_message, MapAdaptive.update_plan,
        callPlannerReplan, hgen, htrig]

/-- Witness for C4 at a concrete input: plan `"plan1"`, counter 7, a tool
error arriving, and a failing replan leave the plan unchanged with the
counter at 1 after the turn. -/
theorem replan_failure_atomicity_witness :
    ((MapAdaptive.generate_next_message "P" (Except.error ()) (Except.error ())
        ⟨some "ok", none, none, none, none⟩
        (AgentInput.tool ⟨"c1", some "boom", true⟩)
        ⟨["sys"], [], some "plan1", true, 7, false⟩).2.1.plan = some "plan1") ∧
    ((MapAdaptive.generate_next_message "P" (Except.error ()) (Except.error ())
        ⟨some "ok", none, none, none, none⟩
        (AgentInput.tool ⟨"c1", some "boom", true⟩)
        ⟨["sys"], [], some "plan1", true, 7, false⟩).2.1.steps_since_replan = 1) :=
  ⟨((replan_failure_atomicity "P" (Except.error ())
      ⟨some "ok", none, none, none, none⟩
      (AgentInput.tool ⟨"c1", some "boom", true⟩)
      ⟨["sys"], [], some "plan1", true, 7, false⟩ "plan1" rfl rfl (by decide)).1).1,
   ((replan_failure_atomicity "P" (Except.error ())
      ⟨some "ok", none, none, none, none⟩
      (AgentInput.tool ⟨"c1", some "boom", true⟩)
      ⟨["sys"], [], some "plan1", true, 7, false⟩ "plan1" rfl rfl (by decide)).1).2.1⟩

/-- Counterexample to C4 as stated: on a concrete turn with counter 7 and
a failing replan, the counter ends the turn at 1 — it was reset by the
failed replan — whereas evolving "exactly as without the replan attempt"
would leave it at 8. -/
theorem replan_failure_counterexample :
    (MapAdaptive.generate_next_message "P" (Except.error ()) (Except.error ())
        ⟨some "ok", none, none, none, none⟩
        (AgentInput.tool ⟨"c1", some "boom", true⟩)
        ⟨["sys"], [], some "plan1", true, 7, false⟩).2.2.replanned = true ∧
    (MapAdaptive.generate_next_message "P" (Except.error ()) (Except.error ())
        ⟨some "ok", none, none, none, none⟩
        (AgentInput.tool ⟨"c1", some "boom", true⟩)
        ⟨["sys"], [], some "plan1", true, 7, false⟩).2.1.steps_since_replan = 1 ∧
    (1 : Nat) ≠ 7 + 1 := by
  refine ⟨rfl, rfl, by decide⟩

/-- Claim C9 — Append-only transcript: for every driver and every turn,
the post-turn history is the pre-turn history, followed by the incoming
message (a MultiTool message expanded into its constituent tool messages),
followed by exactly one final assistant message — the returned one.  No
entry is reordered or deleted, and rejected proposals and retry feedback
never enter the history (the mas_3 clause is conditional on the turn
completing rather than raising). -/
theorem transcript_append_only
    (toolNames : List String) (execP : Nat → AssistantMsg) (verR : Nat → GenResult)
    (policy : String) (initR replanR routerR : GenResult) (execMsg : AssistantMsg)
    (message : AgentInput)
    (stV : MavHard.MAVHardState) (stS : MapStatic.MAPStaticState)
    (stA : MapAdaptive.MAPAdaptiveState) (stB : Mas2.MAS2State)
    (stP : Paper.MultiAgentState) (stT : Mas3.MultiAgentState) :
    ((MavHard.generate_next_message toolNames execP verR message stV).2.1.messages
      = stV.messages ++ expandInput message ++
        [HistMsg.assistant (MavHard.generate_next_message toolNames execP verR message stV).1]) ∧
    ((MapStatic.generate_next_message policy initR execMsg message stS).2.1.messages
      = stS.messages ++ expandInput message ++
        [HistMsg.assistant (MapStatic.generate_next_message policy initR execMsg message stS).1]) ∧
    ((MapAdaptive.generate_next_message policy initR replanR execMsg message stA).2.1.messages
      = stA.messages ++ expandInput message ++
        [HistMsg.assistant (MapAdaptive.generate_next_message policy initR replanR execMsg message stA).1]) ∧
    ((Mas2.generate_next_message routerR execMsg message stB).2.1.messages
      = stB.messages ++ expandInput message ++
        [HistMsg.assistant (Mas2.generate_next_message routerR execMsg message stB).1]) ∧
    ((Paper.generate_next_message routerR execMsg message stP).2.1.messages
      = stP.messages ++ expandInput message ++
        [HistMsg.assistant (Paper.generate_next_message routerR execMsg message stP).1]) ∧
    (∀ (m : AssistantMsg) (st' : Mas3.MultiAgentState),
      (Mas3.generate_next_message routerR execMsg message stT).1 = some (m, st') →
      st'.messages = stT.messages ++ expandInput message ++ [HistMsg.assistant m]) := by
  refine ⟨?_, ?_, ?_, ?_, ?_, ?_⟩
  · simp [MavHard.generate_next_message, List.append_assoc]
  · simp [MapStatic.generate_next_message, List.append_assoc]
  · simp only [MapAdaptive.generate_next_message]
    split <;> simp [MapAdaptive.update_plan, List.append_assoc]
  · by_cases hu : message.isUser
    · simp [Mas2.generate_next_message, hu, List.append_assoc]
    · simp [Mas2.generate_next_message, hu, List.append_assoc]
  · by_cases hr : stP.is_routed
    · simp [Paper.generate_next_message, hr, List.append_assoc]
    · simp [Paper.generate_next_message, hr, List.append_assoc]
  · intro m st' h
    by_cases hu : message.isUser
    · simp only [Mas3.generate_next_message, hu, if_true] at h
      rw [Option.some.injEq, Prod.mk.injEq] at h
      obtain ⟨h1, h2⟩ := h
      subst h1
      subst h2
      simp [List.append_assoc]
    · rcases hca : stT.current_agent with _ | a
      · simp only [Mas3.generate_next_message, hu, Bool.false_eq_true, if_false, hca] at h
        exact Option.noConfusion h
      · simp only [Mas3.generate_next_message, hu, Bool.false_eq_true, if_false, hca] at h
        rw [Option.some.injEq, Prod.mk.injEq] at h
        obtain ⟨h1, h2⟩ := h
        subst h1
        subst h2
        simp [List.append_assoc]

/-- Witness for C9's conditional mas_3 clause at a concrete completing
turn: a user message on a fresh state routes and appends exactly the
incoming message and the returned assistant message. -/
theorem transcript_append_only_witness :
    ((Mas3.generate_next_message (Except.error ())
        ⟨some "hello", none, none, none, none⟩
        (AgentInput.user ⟨some "hi"⟩) (Mas3.get_init_state [])).1
      = some (⟨some "hello", none, none, none,
            some [("generated_by_agent", MetaVal.str "service_issue")]⟩,
          ⟨[Mas3.agentPrompt IssueType3.service_issue],
            [HistMsg.user ⟨some "hi"⟩,
              HistMsg.assistant ⟨some "hello", none, none, none,
                some [("generated_by_agent", MetaVal.str "service_issue")]⟩],
            some IssueType3.service_issue, true⟩)) ∧
    (⟨[Mas3.agentPrompt IssueType3.service_issue],
        [HistMsg.user ⟨some "hi"⟩,
          HistMsg.assistant ⟨some "hello", none, none, none,
            some [("generated_by_agent", MetaVal.str "service_issue")]⟩],
        some IssueType3.service_issue, true⟩ : Mas3.MultiAgentState).messages
      = (Mas3.get_init_state []).messages ++ expandInput (AgentInput.user ⟨some "hi"⟩) ++
        [HistMsg.assistant ⟨some "hello", none, none, none,
          some [("generated_by_agent", MetaVal.str "service_issue")]⟩] :=
  ⟨by decide,
   (transcript_append_only [] (fun _ => ⟨none, none, none, none, none⟩)
      (fun _ => Except.error ()) "" (Except.error ()) (Except.error ()) (Except.error ())
      ⟨some "hello", none, none, none, none⟩
      (AgentInput.user ⟨some "hi"⟩)
      ⟨[], []⟩ ⟨[], [], none, false⟩ ⟨[], [], none, false, 0, false⟩
      ⟨[], [], none, false⟩ ⟨[], [], none, false⟩ (Mas3.get_init_state [])).2.2.2.2.2
      ⟨some "hello", none, none, none,
        some [("generated_by_agent", MetaVal.str "service_issue")]⟩
      ⟨[Mas3.agentPrompt IssueType3.service_issue],
        [HistMsg.user ⟨some "hi"⟩,
          HistMsg.assistant ⟨some "hello", none, none, none,
            some [("generated_by_agent", MetaVal.str "service_issue")]⟩],
        some IssueType3.service_issue, true⟩
      (by decide)⟩

/-- Claim C1 — Hard verification bound: in the hard-verification driver,
every turn invokes the Executor at most 5 times (1 initial proposal + 4
retries); the first approved attempt `k` exits the loop immediately with
the `k`-th proposal as the returned action (no escalation); and when none
of the 5 attempts is approved, the returned message is the synthetic
escalation — the `transfer_to_human_agents` tool call when that tool is
in the tool inventory, else the fixed apologetic text — and never one of
the Executor's raw proposals. -/
theorem mav_hard_verification_bound
    (toolNames : List String) (execP : Nat → AssistantMsg) (verR : Nat → GenResult)
    (message : AgentInput) (st : MavHard.MAVHardState) :
    ((MavHard.generate_next_message toolNames execP verR message st).2.2.execCalls ≤ 5) ∧
    (∀ k, 1 ≤ k → k ≤ 5 → verApproved verR k = true →
      (∀ j, 1 ≤ j → j < k → verApproved verR j = false) →
      (MavHard.generate_next_message toolNames execP verR message st).2.2.execCalls = k ∧
      (MavHard.generate_next_message toolNames execP verR message st).2.2.verCalls = k ∧
      (MavHard.generate_next_message toolNames execP verR message st).2.2.escalated = false ∧
      (MavHard.generate_next_message toolNames execP verR message st).1.content
        = (execP k).content ∧
      (MavHard.generate_next_message toolNames execP verR message st).1.toolCalls
        = (execP k).toolCalls) ∧
    ((∀ j, 1 ≤ j → j ≤ 5 → verApproved verR j = false) →
      (MavHard.generate_next_message toolNames execP verR message st).2.2.escalated = true ∧
      (MavHard.generate_next_message toolNames execP verR message st).2.2.execCalls = 5 ∧
      (toolNames.contains MavHard.TRANSFER_TOOL_NAME = true →
        (MavHard.generate_next_message toolNames execP verR message st).1.content = none ∧
        (MavHard.generate_next_message toolNames execP verR message st).1.toolCalls
          = MavHard.makeTransferMessage.toolCalls) ∧
      (toolNames.contains MavHard.TRANSFER_TOOL_NAME = false →
        (MavHard.generate_next_message toolNames execP verR message st).1.content
          = MavHard.makeFallbackTextMessage.content ∧
        (MavHard.generate_next_message toolNames execP verR message st).1.toolCalls = none)) := by
  have hmax : MavHard.maxAttempts = 5 := rfl
  refine ⟨?_, ?_, ?_⟩
  · have h1 : (MavHard.generate_next_message toolNames execP verR message st).2.2.execCalls
        = (MavHard.verificationLoop execP verR MavHard.maxAttempts 1 (execP 1) 0 ⟨0, 0⟩).attempt := by
      simp [MavHard.generate_next_message]
    rw [h1, ← hmax]
    exact loop_attempt_le execP verR MavHard.maxAttempts 1 (execP 1) 0 ⟨0, 0⟩ (by omega)
  · intro k hk1 hk5 happ hrej
    have hout := loop_run_first_approved execP verR MavHard.maxAttempts 1 0 ⟨0, 0⟩ k
      (by omega) hk1 (by omega) happ (fun j hj1 hj2 => hrej j hj1 hj2)
    refine ⟨?_, ?_, ?_, ?_, ?_⟩ <;>
      simp [MavHard.generate_next_message, hout, verApproved_eq, happ, mergeExtras]
  · intro hrejAll
    have hout := loop_run_all_rejected execP verR MavHard.maxAttempts 1 0 ⟨0, 0⟩
      (by omega) le_rfl (by omega) (fun j hj1 hj2 => hrejAll j hj1 (by omega))
    have h5 : verApproved verR 5 = false := hrejAll 5 (by omega) (by omega)
    rw [hmax] at hout
    refine ⟨?_, ?_, ?_, ?_⟩
    · simp [MavHard.generate_next_message, MavHard.maxAttempts, MavHard.MAX_RETRIES,
        hout, verApproved_eq, h5]
    · simp [MavHard.generate_next_message, MavHard.maxAttempts, MavHard.MAX_RETRIES,
        hout, verApproved_eq, h5]
    · intro hcont
      have hmem : MavHard.TRANSFER_TOOL_NAME ∈ toolNames := by simpa using hcont
      constructor <;>
        simp [MavHard.generate_next_message, MavHard.maxAttempts, MavHard.MAX_RETRIES,
          hout, verApproved_eq, h5, hmem, mergeExtras, MavHard.makeTransferMessage]
    · intro hcont
      have hmem : MavHard.TRANSFER_TOOL_NAME ∉ toolNames := by simpa using hcont
      constructor <;>
        simp [MavHard.generate_next_message, MavHard.maxAttempts, MavHard.MAX_RETRIES,
          hout, verApproved_eq, h5, hmem, mergeExtras, MavHard.makeFallbackTextMessage]

/-- Witness for C1 at concrete inputs: with every verifier response a
rejection and the transfer tool available, the turn escalates after
exactly 5 executor attempts and returns the transfer tool call. -/
theorem mav_hard_verification_bound_witness :
    ((MavHard.generate_next_message ["transfer_to_human_agents"]
        (fun k => ⟨some (toString k), none, some 2, none, none⟩)
        (fun _ => Except.ok ⟨some "REJECT\nno", some 1, none⟩)
        (AgentInput.user ⟨some "hi"⟩) ⟨["sys"], []⟩).2.2.escalated = true) ∧
    ((MavHard.generate_next_message ["transfer_to_human_agents"]
        (fun k => ⟨some (toString k), none, some 2, none, none⟩)
        (fun _ => Except.ok ⟨some "REJECT\nno", some 1, none⟩)
        (AgentInput.user ⟨some "hi"⟩) ⟨["sys"], []⟩).2.2.execCalls = 5) ∧
    ((MavHard.generate_next_message ["transfer_to_human_agents"]
        (fun k => ⟨some (toString k), none, some 2, none, none⟩)
        (fun _ => Except.ok ⟨some "REJECT\nno", some 1, none⟩)
        (AgentInput.user ⟨some "hi"⟩) ⟨["sys"], []⟩).1.toolCalls
      = MavHard.makeTransferMessage.toolCalls) := by
  have h := (mav_hard_verification_bound ["transfer_to_human_agents"]
    (fun k => ⟨some (toString k), none, some 2, none, none⟩)
    (fun _ => Except.ok ⟨some "REJECT\nno", some 1, none⟩)
    (AgentInput.user ⟨some "hi"⟩) ⟨["sys"], []⟩).2.2
    (fun j _ _ => rfl)
  exact ⟨h.1, h.2.1, (h.2.2.1 (by decide)).2⟩

/-- The merged cost, read with default 0, adds exactly the extra cost. -/
lemma mergeExtras_cost_getD (m : AssistantMsg) (c : ℚ) (u : Usage) :
    (mergeExtras m c u).cost.getD 0 = m.cost.getD 0 + c := by
  unfold mergeExtras
  cases hc : m.cost
  · simp [hc]
  · simp [hc]

/-- The merged prompt-token count adds exactly the extra usage. -/
lemma mergeExtras_usage_pt (m : AssistantMsg) (c : ℚ) (u : Usage) :
    (usageOf (mergeExtras m c u).usage).promptTokens
      = (usageOf m.usage).promptTokens + u.promptTokens := by
  unfold mergeExtras
  cases hu : m.usage
  · by_cases h : (0 < u.completionTokens || 0 < u.promptTokens) = true
    · simp [hu, h, usageOf]
    · obtain ⟨h2, h1⟩ := Bool.or_eq_false_iff.mp (eq_false_of_ne_true h)
      have h1' : u.promptTokens = 0 := by simpa using h1
      have h2' : u.completionTokens = 0 := by simpa using h2
      simp [hu, usageOf, h1', h2']
  · simp [hu, usageOf, Usage.addU]

/-- The merged completion-token count adds exactly the extra usage. -/
lemma mergeExtras_usage_ct (m : AssistantMsg) (c : ℚ) (u : Usage) :
    (usageOf (mergeExtras m c u).usage).completionTokens
      = (usageOf m.usage).completionTokens + u.completionTokens := by
  unfold mergeExtras
  cases hu : m.usage
  · by_cases h : (0 < u.completionTokens || 0 < u.promptTokens) = true
    · simp [hu, h, usageOf]
    · obtain ⟨h2, h1⟩ := Bool.or_eq_false_iff.mp (eq_false_of_ne_true h)
      have h1' : u.promptTokens = 0 := by simpa using h1
      have h2' : u.completionTokens = 0 := by simpa using h2
      simp [hu, usageOf, h1', h2']
  · simp [hu, usageOf, Usage.addU]

/-- The guarded planner merge adds exactly the (nonnegative) planner cost. -/
lemma mergeGuarded_cost_getD (m : AssistantMsg) (c : ℚ) (u : Usage) (hc : 0 ≤ c) :
    (mergeGuarded m c u).cost.getD 0 = m.cost.getD 0 + c := by
  unfold mergeGuarded
  by_cases h : 0 < c
  · rw [if_pos h, mergeExtras_cost_getD]
  · rw [if_neg h, le_antisymm (not_lt.mp h) hc, add_zero]

/-- The safety net preserves the proposal's cost. -/
lemma safetyNet_cost (f : String) (m : AssistantMsg) :
    (safetyNet f m).cost = m.cost := by
  unfold safetyNet
  split_ifs <;> rfl

/-- The safety net preserves the proposal's usage. -/
lemma safetyNet_usage (f : String) (m : AssistantMsg) :
    (safetyNet f m).usage = m.usage := by
  unfold safetyNet
  split_ifs <;> rfl


/-- Usage of a present mapping is itself. -/
lemma usageOf_some (u : Usage) : usageOf (some u) = u := rfl

/-- Cost and token conservation of one hard-verification turn: the
returned message's cost (and usage counters) equal the sums over all
executor and verifier invocations of the turn. -/
lemma mav_turn_cost_usage (toolNames : List String) (execP : Nat → AssistantMsg)
    (verR : Nat → GenResult) (message : AgentInput) (stV : MavHard.MAVHardState) :
    ((MavHard.generate_next_message toolNames execP verR message stV).1.cost.getD 0
      = (∑ j ∈ Finset.Ico 1
            ((MavHard.generate_next_message toolNames execP verR message stV).2.2.execCalls + 1),
          (execP j).cost.getD 0)
        + (∑ j ∈ Finset.Ico 1
            ((MavHard.generate_next_message toolNames execP verR message stV).2.2.verCalls + 1),
          (MavHard.callVerifier (verR j)).cost)) ∧
    ((usageOf (MavHard.generate_next_message toolNames execP verR message stV).1.usage).promptTokens
      = (∑ j ∈ Finset.Ico 1
            ((MavHard.generate_next_message toolNames execP verR message stV).2.2.execCalls + 1),
          (usageOf (execP j).usage).promptTokens)
        + (∑ j ∈ Finset.Ico 1
            ((MavHard.generate_next_message toolNames execP verR message stV).2.2.verCalls + 1),
          (usageOf (MavHard.callVerifier (verR j)).usage).promptTokens)) ∧
    ((usageOf (MavHard.generate_next_message toolNames execP verR message stV).1.usage).completionTokens
      = (∑ j ∈ Finset.Ico 1
            ((MavHard.generate_next_message toolNames execP verR message stV).2.2.execCalls + 1),
          (usageOf (execP j).usage).completionTokens)
        + (∑ j ∈ Finset.Ico 1
            ((MavHard.generate_next_message toolNames execP verR message stV).2.2.verCalls + 1),
          (usageOf (MavHard.callVerifier (verR j)).usage).completionTokens)) := by
  have hmax : MavHard.maxAttempts = 5 := rfl
  by_cases hall : ∀ j, 1 ≤ j → j ≤ 5 → verApproved verR j = false
  · have hout := loop_run_all_rejected execP verR MavHard.maxAttempts 1 0 ⟨0, 0⟩
      (by omega) le_rfl (by omega) (fun j hj1 hj2 => hall j hj1 (by omega))
    rw [hmax] at hout
    have h5 : verApproved verR 5 = false := hall 5 (by omega) (by omega)
    by_cases hcont : toolNames.contains MavHard.TRANSFER_TOOL_NAME = true
    · have hmem : MavHard.TRANSFER_TOOL_NAME ∈ toolNames := by simpa using hcont
      refine ⟨?_, ?_, ?_⟩ <;>
        · simp [MavHard.generate_next_message, MavHard.maxAttempts, MavHard.MAX_RETRIES,
            hout, verApproved_eq, h5, hmem, mergeExtras_cost_getD,
            mergeExtras_usage_pt, mergeExtras_usage_ct, addTruthyCost_eq, addOptUsage_eq,
            MavHard.makeTransferMessage, usageOf_some, Usage.addU,
            Finset.sum_Ico_succ_top (by omega : (1 : Nat) ≤ 5)]
          ring
    · have hmem : MavHard.TRANSFER_TOOL_NAME ∉ toolNames := by simpa using hcont
      refine ⟨?_, ?_, ?_⟩ <;>
        · simp [MavHard.generate_next_message, MavHard.maxAttempts, MavHard.MAX_RETRIES,
            hout, verApproved_eq, h5, hmem, mergeExtras_cost_getD,
            mergeExtras_usage_pt, mergeExtras_usage_ct, addTruthyCost_eq, addOptUsage_eq,
            MavHard.makeFallbackTextMessage, usageOf_some, Usage.addU,
            Finset.sum_Ico_succ_top (by omega : (1 : Nat) ≤ 5)]
          ring
  · push_neg at hall
    obtain ⟨j0, hj01, hj05, hj0app⟩ := hall
    have hj0app' : verApproved verR j0 = true := by
      cases hja : verApproved verR j0
      · exact absurd hja hj0app
      · rfl
    have hex : ∃ j, 1 ≤ j ∧ j ≤ 5 ∧ verApproved verR j = true := ⟨j0, hj01, hj05, hj0app'⟩
    classical
    let k := Nat.find hex
    have hk : 1 ≤ k ∧ k ≤ 5 ∧ verApproved verR k = true := Nat.find_spec hex
    have hrej : ∀ j, 1 ≤ j → j < k → verApproved verR j = false := by
      intro j h1 h2
      cases hja : verApproved verR j
      · rfl
      · exact absurd (⟨h1, by omega, hja⟩ : 1 ≤ j ∧ j ≤ 5 ∧ verApproved verR j = true)
          (Nat.find_min hex h2)
    have hout := loop_run_first_approved execP verR MavHard.maxAttempts 1 0 ⟨0, 0⟩ k
      (by omega) hk.1 (by rw [hmax]; exact hk.2.1) hk.2.2 hrej
    rw [hmax] at hout
    refine ⟨?_, ?_, ?_⟩ <;>
      · simp [MavHard.generate_next_message, MavHard.maxAttempts, MavHard.MAX_RETRIES,
          hout, verApproved_eq, hk.2.2, mergeExtras_cost_getD,
          mergeExtras_usage_pt, mergeExtras_usage_ct, addTruthyCost_eq, addOptUsage_eq,
          usageOf_some, Usage.addU,
          Finset.sum_Ico_succ_top hk.1]
        ring


/-- Claim C2 (amended) — Cost accounting: the planner and verifier drivers
conserve cost — the returned message's cost equals the sum of every Role
Invocation's cost of the turn (for mav_hard, all executor attempts and all
verifier calls, with usage summed likewise; for the planner drivers, the
executor plus the planner invocation when one was made, with usage merged
when the planner cost is positive) — while the router drivers (mas_2,
paper_multi_agent, mas_3) pass the Executor's cost and usage through
unchanged, discarding the Router invocation's cost and usage entirely. -/
theorem cost_accounting
    (toolNames : List String) (execP : Nat → AssistantMsg) (verR : Nat → GenResult)
    (message : AgentInput) (stV : MavHard.MAVHardState)
    (policy : String) (initR replanR routerR : GenResult) (execMsg : AssistantMsg)
    (stS : MapStatic.MAPStaticState) (stA : MapAdaptive.MAPAdaptiveState)
    (stB : Mas2.MAS2State) (stP : Paper.MultiAgentState) (stT : Mas3.MultiAgentState)
    (hpi : 0 ≤ (callPlannerInitial initR).cost)
    (hpr : 0 ≤ (callPlannerReplan stA.plan replanR).cost) :
    ((MavHard.generate_next_message toolNames execP verR message stV).1.cost.getD 0
      = (∑ j ∈ Finset.Ico 1
            ((MavHard.generate_next_message toolNames execP verR message stV).2.2.execCalls + 1),
          (execP j).cost.getD 0)
        + (∑ j ∈ Finset.Ico 1
            ((MavHard.generate_next_message toolNames execP verR message stV).2.2.verCalls + 1),
          (MavHard.callVerifier (verR j)).cost)) ∧
    ((usageOf (MavHard.generate_next_message toolNames execP verR message stV).1.usage).promptTokens
      = (∑ j ∈ Finset.Ico 1
            ((MavHard.generate_next_message toolNames execP verR message stV).2.2.execCalls + 1),
          (usageOf (execP j).usage).promptTokens)
        + (∑ j ∈ Finset.Ico 1
            ((MavHard.generate_next_message toolNames execP verR message stV).2.2.verCalls + 1),
          (usageOf (MavHard.callVerifier (verR j)).usage).promptTokens)) ∧
    ((usageOf (MavHard.generate_next_message toolNames execP verR message stV).1.usage).completionTokens
      = (∑ j ∈ Finset.Ico 1
            ((MavHard.generate_next_message toolNames execP verR message stV).2.2.execCalls + 1),
          (usageOf (execP j).usage).completionTokens)
        + (∑ j ∈ Finset.Ico 1
            ((MavHard.generate_next_message toolNames execP verR message stV).2.2.verCalls + 1),
          (usageOf (MavHard.callVerifier (verR j)).usage).completionTokens)) ∧
    ((MapStatic.generate_next_message policy initR execMsg message stS).1.cost.getD 0
      = execMsg.cost.getD 0 +
        (if (MapStatic.generate_next_message policy initR execMsg message stS).2.2.plannerCalled
          then (callPlannerInitial initR).cost else 0)) ∧
    ((MapStatic.generate_next_message policy initR execMsg message stS).2.2.plannerCalled = true →
      0 < (callPlannerInitial initR).cost →
      (usageOf (MapStatic.generate_next_message policy initR execMsg message stS).1.usage).promptTokens
        = (usageOf execMsg.usage).promptTokens
          + (usageOf (callPlannerInitial initR).usage).promptTokens ∧
      (usageOf (MapStatic.generate_next_message policy initR execMsg message stS).1.usage).completionTokens
        = (usageOf execMsg.usage).completionTokens
          + (usageOf (callPlannerInitial initR).usage).completionTokens) ∧
    ((MapAdaptive.generate_next_message policy initR replanR execMsg message stA).1.cost.getD 0
      = execMsg.cost.getD 0 +
        (if (MapAdaptive.generate_next_message policy initR replanR execMsg message stA).2.2.initialPlanned
          then (callPlannerInitial initR).cost
          else if (MapAdaptive.generate_next_message policy initR replanR execMsg message stA).2.2.replanned
            then (callPlannerReplan stA.plan replanR).cost
            else 0)) ∧
    ((MapAdaptive.generate_next_message policy initR replanR execMsg message stA).2.2.initialPlanned = true →
      0 < (callPlannerInitial initR).cost →
      (usageOf (MapAdaptive.generate_next_message policy initR replanR execMsg message stA).1.usage).promptTokens
        = (usageOf execMsg.usage).promptTokens
          + (usageOf (callPlannerInitial initR).usage).promptTokens ∧
      (usageOf (MapAdaptive.generate_next_message policy initR replanR execMsg message stA).1.usage).completionTokens
        = (usageOf execMsg.usage).completionTokens
          + (usageOf (callPlannerInitial initR).usage).completionTokens) ∧
    ((MapAdaptive.generate_next_message policy initR replanR execMsg message stA).2.2.replanned = true →
      0 < (callPlannerReplan stA.plan replanR).cost →
      (usageOf (MapAdaptive.generate_next_message policy initR replanR execMsg message stA).1.usage).promptTokens
        = (usageOf execMsg.usage).promptTokens
          + (usageOf (callPlannerReplan stA.plan replanR).usage).promptTokens ∧
      (usageOf (MapAdaptive.generate_next_message policy initR replanR execMsg message stA).1.usage).completionTokens
        = (usageOf execMsg.usage).completionTokens
          + (usageOf (callPlannerReplan stA.plan replanR).usage).completionTokens) ∧
    ((Mas2.generate_next_message routerR execMsg message stB).1.cost = execMsg.cost ∧
      (Mas2.generate_next_message routerR execMsg message stB).1.usage = execMsg.usage) ∧
    ((Paper.generate_next_message routerR execMsg message stP).1.cost = execMsg.cost ∧
      (Paper.generate_next_message routerR execMsg message stP).1.usage = execMsg.usage) ∧
    (∀ (m : AssistantMsg) (st' : Mas3.MultiAgentState),
      (Mas3.generate_next_message routerR execMsg message stT).1 = some (m, st') →
      m.cost = execMsg.cost ∧ m.usage = execMsg.usage) := by
  obtain ⟨hmc, hmp, hmt⟩ := mav_turn_cost_usage toolNames execP verR message stV
  refine ⟨hmc, hmp, hmt, ?_, ?_, ?_, ?_, ?_, ?_, ?_, ?_⟩
  · by_cases hdo : (message.isUser && !stS.plan_generated) = true
    · simp [MapStatic.generate_next_message, hdo, mergeGuarded_cost_getD, hpi]
    · simp [MapStatic.generate_next_message, hdo, mergeGuarded, mergeExtras_cost_getD]
  · intro hpl hpos
    have hdo : (message.isUser && !stS.plan_generated) = true := by
      by_contra hdo
      simp [MapStatic.generate_next_message, hdo] at hpl
    constructor <;>
      simp [MapStatic.generate_next_message, hdo, mergeGuarded, hpos,
        mergeExtras_usage_pt, mergeExtras_usage_ct, addOptUsage_eq, Usage.addU]
  · by_cases hdo : (message.isUser && !stA.plan_generated) = true
    · simp [MapAdaptive.generate_next_message, hdo, mergeGuarded_cost_getD, hpi,
        safetyNet_cost]
    · by_cases hnr : (stA.plan_generated &&
          (MapAdaptive.check_incoming_for_errors message ||
            decide (MapAdaptive.REPLAN_INTERVAL ≤ stA.steps_since_replan))) = true
      · simp [MapAdaptive.generate_next_message, hdo, hnr, mergeGuarded_cost_getD, hpr,
          safetyNet_cost]
      · simp [MapAdaptive.generate_next_message, hdo, hnr, mergeGuarded, safetyNet_cost]
  · intro hpl hpos
    have hdo : (message.isUser && !stA.plan_generated) = true := by
      by_contra hdo
      simp [MapAdaptive.generate_next_message, hdo] at hpl
    constructor <;>
      simp [MapAdaptive.generate_next_message, hdo, mergeGuarded, hpos,
        mergeExtras_usage_pt, mergeExtras_usage_ct, addOptUsage_eq, Usage.addU,
        safetyNet_usage, usageOf_some]
  · intro hpl hpos
    have hdo : ¬((message.isUser && !stA.plan_generated) = true) := by
      intro hdo
      simp [MapAdaptive.generate_next_message, hdo] at hpl
    have hnr : (stA.plan_generated &&
        (MapAdaptive.check_incoming_for_errors message ||
          decide (MapAdaptive.REPLAN_INTERVAL ≤ stA.steps_since_replan))) = true := by
      by_contra hnr
      simp [MapAdaptive.generate_next_message, hdo, hnr] at hpl
    constructor <;>
      simp [MapAdaptive.generate_next_message, hdo, hnr, mergeGuarded, hpos,
        mergeExtras_usage_pt, mergeExtras_usage_ct, addOptUsage_eq, Usage.addU,
        safetyNet_usage, usageOf_some]
  · constructor
    · simp [Mas2.generate_next_message, safetyNet_cost]
    · simp [Mas2.generate_next_message, safetyNet_usage]
  · constructor
    · by_cases hr : stP.is_routed
      · simp [Paper.generate_next_message, hr]
      · simp [Paper.generate_next_message, hr]
    · by_cases hr : stP.is_routed
      · simp [Paper.generate_next_message, hr]
      · simp [Paper.generate_next_message, hr]
  · intro m st' h
    by_cases hu : message.isUser
    · simp only [Mas3.generate_next_message, hu, if_true] at h
      rw [Option.some.injEq, Prod.mk.injEq] at h
      obtain ⟨h1, _⟩ := h
      subst h1
      exact ⟨rfl, rfl⟩
    · rcases hca : stT.current_agent with _ | a
      · simp only [Mas3.generate_next_message, hu, Bool.false_eq_true, if_false, hca] at h
        exact Option.noConfusion h
      · simp only [Mas3.generate_next_message, hu, Bool.false_eq_true, if_false, hca] at h
        rw [Option.some.injEq, Prod.mk.injEq] at h
        obtain ⟨h1, _⟩ := h
        subst h1
        exact ⟨rfl, rfl⟩


/-- Counterexample to C2 as stated: on a concrete mas_3 turn the Router
invocation costs 1 and the Executor's message costs 2, yet the returned
message's cost is 2, not the sum 3 — the Router's cost is discarded. -/
theorem cost_conservation_counterexample :
    ((Mas3.generate_next_message (Except.ok ⟨some "mms_issue", some 1, none⟩)
        ⟨some "hello", none, some 2, none, none⟩
        (AgentInput.user ⟨some "hi"⟩) (Mas3.get_init_state [])).1.map
      (fun p => p.1.cost)) = some (some 2) ∧
    ((Mas3.generate_next_message (Except.ok ⟨some "mms_issue", some 1, none⟩)
        ⟨some "hello", none, some 2, none, none⟩
        (AgentInput.user ⟨some "hi"⟩) (Mas3.get_init_state [])).2.routerCalls = 1) ∧
    ((2 : ℚ) ≠ 1 + 2) := by
  refine ⟨rfl, rfl, by norm_num⟩

/-- Witness for C2 at a concrete input: a static-planner turn whose
planner invocation costs 3 and whose executor message costs 2 returns a
message of cost 5. -/
theorem cost_accounting_witness :
    (0 : ℚ) ≤ (callPlannerInitial (Except.ok ⟨some "PLAN", some 3, some ⟨10, 5⟩⟩)).cost ∧
    (MapStatic.generate_next_message "P" (Except.ok ⟨some "PLAN", some 3, some ⟨10, 5⟩⟩)
        ⟨some "hello", none, some 2, some ⟨7, 3⟩, none⟩
        (AgentInput.user ⟨some "hi"⟩) (MapStatic.get_init_state "P" [])).1.cost.getD 0
      = 5 := by
  constructor
  · norm_num [callPlannerInitial]
  · have h := (cost_accounting [] (fun _ => ⟨none, none, none, none, none⟩)
      (fun _ => Except.error ()) (AgentInput.user ⟨some "hi"⟩) ⟨[], []⟩
      "P" (Except.ok ⟨some "PLAN", some 3, some ⟨10, 5⟩⟩) (Except.error ())
      (Except.error ()) ⟨some "hello", none, some 2, some ⟨7, 3⟩, none⟩
      (MapStatic.get_init_state "P" []) (MapAdaptive.get_init_state "P" [])
      (Mas2.get_init_state []) (Paper.get_init_state []) (Mas3.get_init_state [])
      (by norm_num [callPlannerInitial]) (by norm_num [callPlannerReplan])).2.2.2.1
    have hp : (MapStatic.generate_next_message "P"
        (Except.ok ⟨some "PLAN", some 3, some ⟨10, 5⟩⟩)
        ⟨some "hello", none, some 2, some ⟨7, 3⟩, none⟩
        (AgentInput.user ⟨some "hi"⟩)
        (MapStatic.get_init_state "P" [])).2.2.plannerCalled = true := rfl
    rw [h, hp]
    norm_num [callPlannerInitial]

end Tau2MA
